import Mathlib

/-!
Verification development for the netifd external-device proxy controller
(source file src/ubusdev.c).  The definitions below are a shallow embedding
of the controller code: the per-entity synchronisation state machines for
externally managed devices, bridges and bridge members, the subscription
guard, the retry/timeout callbacks and the notification dispatch.

Conventions of the embedding:
* machine integers are modelled as Nat or Int; ubus status codes as Nat;
* the asynchronous transport is modelled by explicit result parameters:
  every call of netifd_ubusdev_invoke_async receives its submission status
  as an argument (0 = accepted), and device_claim or the preserved
  set_state callback receive their result the same way; a compound
  operation that performs several invocations in one pass receives one
  shared status for that pass;
* the uloop single-shot timer of an entity is modelled by a Bool that says
  whether the timer is armed;
* observable side effects (ubus method invocations, critical and warning
  log lines, registry calls such as device_claim, device_add_user,
  device_remove_user, device_release, device_lock and device_unlock, and
  topology broadcasts) are collected in an Effects record.
-/

namespace Ubusdev

/-- UBUSDEV_MAX_RETRY_CNT from src/ubusdev.c. -/
def UBUSDEV_MAX_RETRY_CNT : Nat := 3

/-- UBUSDEV_TIMEOUT (milliseconds) from src/ubusdev.c. -/
def UBUSDEV_TIMEOUT : Nat := 1000

/-- ubus status code: success. -/
def UBUS_STATUS_OK : Nat := 0

/-- ubus status code: invalid argument. -/
def UBUS_STATUS_INVALID_ARGUMENT : Nat := 2

/-- ubus status code: not found. -/
def UBUS_STATUS_NOT_FOUND : Nat := 4

/-- ubus status code: not supported. -/
def UBUS_STATUS_NOT_SUPPORTED : Nat := 8

/-- ubus status code: unknown error. -/
def UBUS_STATUS_UNKNOWN_ERROR : Nat := 9

/-- enum state_sync from src/ubusdev.c: the per-entity synchronisation
state between netifd and the external device handler. -/
inductive state_sync where
  | STATE_SYNCHRONIZED
  | STATE_PENDING_CREATE
  | STATE_PENDING_RELOAD
  | STATE_PENDING_DISABLE
  | STATE_PENDING_FREE
  | STATE_PENDING_CONFIG_INIT
  | STATE_PENDING_PREPARE
  | STATE_PENDING_ADD
  | STATE_PENDING_REMOVE
deriving DecidableEq, Repr

open state_sync

/-- enum dev_change_type of netifd (the values ubusdev_reload returns). -/
inductive dev_change_type where
  | DEV_CONFIG_NO_CHANGE
  | DEV_CONFIG_APPLIED
  | DEV_CONFIG_RESTART
deriving DecidableEq, Repr

open dev_change_type

/-- Observable side effects of one controller entry point: the ubus methods
submitted to the external handler (in order, by method name), counters of
critical and warning log lines, and counters of the registry calls the
controller makes.  The lock and unlock counters track device_lock and
device_unlock; src/ubusdev.c never calls either, so no modelled function
increments them. -/
structure Effects where
  invoked : List String := []
  crit : Nat := 0
  warn : Nat := 0
  claims : Nat := 0
  add_user : Nat := 0
  remove_user : Nat := 0
  released : Nat := 0
  broadcasts : Nat := 0
  locks : Nat := 0
  unlocks : Nat := 0
  toggles : Nat := 0
deriving DecidableEq, Repr

/-- The empty effect record. -/
def eff0 : Effects := {}

/-- Sequencing of two effect records. -/
def Effects.merge (a b : Effects) : Effects :=
  { invoked := a.invoked ++ b.invoked
    crit := a.crit + b.crit
    warn := a.warn + b.warn
    claims := a.claims + b.claims
    add_user := a.add_user + b.add_user
    remove_user := a.remove_user + b.remove_user
    released := a.released + b.released
    broadcasts := a.broadcasts + b.broadcasts
    locks := a.locks + b.locks
    unlocks := a.unlocks + b.unlocks
    toggles := a.toggles + b.toggles }

/-- ubusdev_invocation_error from src/ubusdev.c: one critical log line. -/
def ubusdev_invocation_error : Effects := { crit := 1 }

/-- ubusdev_check_subscribed from src/ubusdev.c: returns the subscription
flag of the type binding and emits one warning log line when the binding
is not subscribed. -/
def ubusdev_check_subscribed (subscribed : Bool) : Bool × Effects :=
  if subscribed then (true, eff0) else (false, { warn := 1 })

/-- struct ubusdev_device from src/ubusdev.c, for a plain (non-bridge)
device: the embedded struct device is reflected by the ifname, present and
config_pending fields, the synchronisation fields sync, retry (armed flag)
and retry_cnt are as in the source. -/
structure ubusdev_device where
  ifname : String
  sync : state_sync
  retry_cnt : Nat
  retry_armed : Bool
  present : Bool
  config_pending : Bool
deriving DecidableEq, Repr

/-- ubusdev_set_sync from src/ubusdev.c, instantiated for a plain device:
store the new state and cancel the retry timer when it is
STATE_SYNCHRONIZED.  The bridge_capability branch of the source function
(re-running the member enable pass) is the bridge instantiation below. -/
def ubusdev_set_sync (udev : ubusdev_device) (status : state_sync) :
    ubusdev_device :=
  { udev with
    sync := status
    retry_armed := if status = STATE_SYNCHRONIZED then false
                   else udev.retry_armed }

/-- ubusdev_set_timeout from src/ubusdev.c for a plain device: set the
sync state and arm the retry timer. -/
def ubusdev_set_timeout (udev : ubusdev_device) (status : state_sync) :
    ubusdev_device :=
  { ubusdev_set_sync udev status with retry_armed := true }

/-- Helper for src/ubusdev.c function _ubusdev_create: the freshly
allocated and device_init-ialised wrapper (calloc zeroes every field, and
enum value 0 is STATE_SYNCHRONIZED). -/
def ubusdev_device_init (name : String) : ubusdev_device :=
  { ifname := name
    sync := STATE_SYNCHRONIZED
    retry_cnt := 0
    retry_armed := false
    present := false
    config_pending := false }

/-- Function _ubusdev_create from src/ubusdev.c: allocate the wrapper,
invoke the create method of the external handler (submission status
inv_ret), clear config_pending and enter STATE_PENDING_CREATE with the
retry timer armed; on submission failure log the invocation error and
free the wrapper again (no device results). -/
def _ubusdev_create (name : String) (inv_ret : Nat) :
    Option ubusdev_device × Effects :=
  let udev := ubusdev_device_init name
  if inv_ret ≠ 0 then
    (none, Effects.merge { invoked := ["create"] } ubusdev_invocation_error)
  else
    let udev := { udev with config_pending := false }
    (some (ubusdev_set_timeout udev STATE_PENDING_CREATE),
     { invoked := ["create"] })

/-- ubusdev_create from src/ubusdev.c, non-bridge branch: refuse when the
type binding is not subscribed (warning, no device, no invocation),
otherwise run _ubusdev_create. -/
def ubusdev_create (subscribed : Bool) (name : String) (inv_ret : Nat) :
    Option ubusdev_device × Effects :=
  match ubusdev_check_subscribed subscribed with
  | (true, e) =>
    let r := _ubusdev_create name inv_ret
    (r.1, Effects.merge e r.2)
  | (false, e) => (none, e)

/-- ubusdev_free from src/ubusdev.c: refuse when unsubscribed; otherwise
invoke the free method and, on submission success, enter
STATE_PENDING_FREE with the timer armed.  The source has no return before
its error label, so the invocation-error critical log is emitted on the
success path as well. -/
def ubusdev_free (subscribed : Bool) (udev : ubusdev_device)
    (inv_ret : Nat) : ubusdev_device × Effects :=
  match ubusdev_check_subscribed subscribed with
  | (false, e) => (udev, e)
  | (true, e) =>
    let e := Effects.merge e { invoked := ["free"] }
    if inv_ret ≠ 0 then
      (udev, Effects.merge e ubusdev_invocation_error)
    else
      (ubusdev_set_timeout udev STATE_PENDING_FREE,
       Effects.merge e ubusdev_invocation_error)

/-- Function _ubusdev_reload from src/ubusdev.c for a plain device.  The
blobmsg configuration diff of the source is reflected by the Bool
argument diff.  With no diff nothing happens; otherwise the device is set
not present, reload is invoked, and on submission success the device
enters STATE_PENDING_RELOAD with the timer armed (on failure the change
is reported as DEV_CONFIG_NO_CHANGE and the state keeps the cleared
present flag, as in the source). -/
def _ubusdev_reload (udev : ubusdev_device) (diff : Bool) (inv_ret : Nat) :
    ubusdev_device × dev_change_type × Effects :=
  if !diff then (udev, DEV_CONFIG_NO_CHANGE, eff0)
  else
    let udev := { udev with present := false }
    if inv_ret ≠ 0 then
      (udev, DEV_CONFIG_NO_CHANGE, { invoked := ["reload"] })
    else
      (ubusdev_set_timeout udev STATE_PENDING_RELOAD, DEV_CONFIG_RESTART,
       { invoked := ["reload"] })

/-- ubusdev_reload from src/ubusdev.c, non-bridge branch: subscription
guard in front of _ubusdev_reload. -/
def ubusdev_reload (subscribed : Bool) (udev : ubusdev_device)
    (diff : Bool) (inv_ret : Nat) :
    ubusdev_device × dev_change_type × Effects :=
  match ubusdev_check_subscribed subscribed with
  | (false, e) => (udev, DEV_CONFIG_NO_CHANGE, e)
  | (true, e) =>
    let r := _ubusdev_reload udev diff inv_ret
    (r.1, r.2.1, Effects.merge e r.2.2)

/-- ubusdev_timeout_cb from src/ubusdev.c (retry timer of a plain
device).  The timer has just fired, so it is disarmed on entry.  The
retry counter is post-incremented; at UBUSDEV_MAX_RETRY_CNT the callback
only logs one critical line and returns, leaving the timer unarmed.
Otherwise the method for the current pending state is re-invoked (create
and reload resend the stored config, free rebuilds a name payload), an
invocation error is logged if submission fails, and the timer is re-armed
in either case.  States without a retry method return without
re-arming. -/
def ubusdev_timeout_cb (udev : ubusdev_device) (inv_ret : Nat) :
    ubusdev_device × Effects :=
  let udev := { udev with retry_armed := false }
  if udev.retry_cnt = UBUSDEV_MAX_RETRY_CNT then
    ({ udev with retry_cnt := udev.retry_cnt + 1 }, { crit := 1 })
  else
    let udev := { udev with retry_cnt := udev.retry_cnt + 1 }
    match udev.sync with
    | STATE_PENDING_CREATE =>
      ({ udev with retry_armed := true },
       Effects.merge { invoked := ["create"] }
         (if inv_ret ≠ 0 then ubusdev_invocation_error else eff0))
    | STATE_PENDING_RELOAD =>
      ({ udev with retry_armed := true },
       Effects.merge { invoked := ["reload"] }
         (if inv_ret ≠ 0 then ubusdev_invocation_error else eff0))
    | STATE_PENDING_FREE =>
      ({ udev with retry_armed := true },
       Effects.merge { invoked := ["free"] }
         (if inv_ret ≠ 0 then ubusdev_invocation_error else eff0))
    | _ => (udev, eff0)

/-- Function _ubusdev_handle_create_notification from src/ubusdev.c: a
plain device in STATE_PENDING_CREATE becomes synchronized and present;
any other state is left untouched. -/
def _ubusdev_handle_create_notification (udev : ubusdev_device) :
    ubusdev_device × Nat :=
  if udev.sync ≠ STATE_PENDING_CREATE then (udev, 0)
  else ({ ubusdev_set_sync udev STATE_SYNCHRONIZED with present := true }, 0)

/-- ubusdev_handle_create_notification from src/ubusdev.c, restricted to
the non-bridge branch.  The device registry holding the single device the
notification names is modelled by an Option: device_get returning NULL
makes the handler return 0 without effect. -/
def ubusdev_handle_create_notification (st : Option ubusdev_device) :
    Option ubusdev_device × Nat :=
  match st with
  | none => (none, 0)
  | some udev =>
    let r := _ubusdev_handle_create_notification udev
    (some r.1, r.2)

/-- ubusdev_handle_reload_notification from src/ubusdev.c for a plain
device: a missing device yields UBUS_STATUS_NOT_FOUND; a device in
STATE_PENDING_RELOAD becomes synchronized and present; otherwise the
handler returns 0 without change. -/
def ubusdev_handle_reload_notification (st : Option ubusdev_device) :
    Option ubusdev_device × Nat :=
  match st with
  | none => (none, UBUS_STATUS_NOT_FOUND)
  | some udev =>
    if udev.sync = STATE_PENDING_RELOAD then
      (some { ubusdev_set_sync udev STATE_SYNCHRONIZED with present := true },
       0)
    else (some udev, 0)

/-- ubusdev_handle_free_notification from src/ubusdev.c for a non-bridge
device: a missing device yields UBUS_STATUS_INVALID_ARGUMENT; for an
existing non-bridge device the whole bridge_capability block is skipped
and the handler returns 0, leaving the device entry untouched. -/
def ubusdev_handle_free_notification (st : Option ubusdev_device) :
    Option ubusdev_device × Nat :=
  match st with
  | none => (none, UBUS_STATUS_INVALID_ARGUMENT)
  | some udev => (some udev, 0)

/-- enum device_event of netifd, restricted to the events
ubusdev_bridge_member_cb reacts to. -/
inductive device_event where
  | DEV_EVENT_ADD
  | DEV_EVENT_REMOVE
  | DEV_EVENT_OTHER
deriving DecidableEq, Repr

open device_event

/-- struct ubusdev_bridge_member from src/ubusdev.c.  The device_user
relation into the daemon registry is reflected by dev_present (the present
flag of the underlying registry-owned device); version is the vlist node
version used by the vlist update/flush diffing. -/
structure ubusdev_bridge_member where
  name : String
  present : Bool
  hotplug : Bool
  sync : state_sync
  retry_armed : Bool
  retry_cnt : Nat
  dev_present : Bool
  version : Nat
deriving DecidableEq, Repr

/-- struct ubusdev_bridge from src/ubusdev.c.  The embedded
ubusdev_device and struct device are flattened: present and dev_active
are dev.present and dev.active, sys_up is the state driven by the
preserved daemon set_state callback, has_config says whether a config
blob is stored, and the parsed results of that blob are the empty and
ifnames fields.  vlist_version is the version counter of the members
vlist. -/
structure ubusdev_bridge where
  ifname : String
  sync : state_sync
  retry_cnt : Nat
  retry_armed : Bool
  present : Bool
  dev_active : Bool
  sys_up : Bool
  config_pending : Bool
  empty : Bool
  ifnames : Option (List String)
  active : Bool
  force_active : Bool
  n_present : Int
  n_failed : Int
  has_config : Bool
  vlist_version : Nat
  members : List ubusdev_bridge_member
deriving DecidableEq, Repr

/-- vlist_find on the members vlist: lookup a member by interface name. -/
def findMember (ms : List ubusdev_bridge_member) (n : String) :
    Option ubusdev_bridge_member :=
  ms.find? (fun m => m.name = n)

/-- Point update of the member with the given name (the vlist key is
unique, so at most one entry is affected). -/
def updMember (ms : List ubusdev_bridge_member) (n : String)
    (f : ubusdev_bridge_member → ubusdev_bridge_member) :
    List ubusdev_bridge_member :=
  ms.map (fun m => if m.name = n then f m else m)

/-- ubusdev_bridge_member_set_sync from src/ubusdev.c: store the state
and cancel the member retry timer when it is STATE_SYNCHRONIZED. -/
def ubusdev_bridge_member_set_sync (ubm : ubusdev_bridge_member)
    (status : state_sync) : ubusdev_bridge_member :=
  { ubm with
    sync := status
    retry_armed := if status = STATE_SYNCHRONIZED then false
                   else ubm.retry_armed }

/-- ubusdev_bridge_member_set_timeout from src/ubusdev.c: set the member
state and arm the member retry timer. -/
def ubusdev_bridge_member_set_timeout (ubm : ubusdev_bridge_member)
    (status : state_sync) : ubusdev_bridge_member :=
  { ubusdev_bridge_member_set_sync ubm status with retry_armed := true }

/-- Error label of ubusdev_bridge_enable_member from src/ubusdev.c:
increment n_failed, clear the member present flag, force the member into
STATE_PENDING_ADD (direct assignment, the timer is not touched) and
decrement n_present. -/
def member_enable_error (ubr : ubusdev_bridge) (mname : String) :
    ubusdev_bridge :=
  { ubr with
    n_failed := ubr.n_failed + 1
    n_present := ubr.n_present - 1
    members := updMember ubr.members mname
      (fun m => { m with present := false, sync := STATE_PENDING_ADD }) }

/-- ubusdev_bridge_enable_member from src/ubusdev.c.  claim_ret is the
result of device_claim, inv_ret the submission status of the hotplug-add
invocation.  A member that is not present returns immediately; a failed
claim, a bridge that is not present or not synchronized, or a failed
submission all run the error label; note that the member is moved to
STATE_PENDING_ADD with an armed timer before the submission status is
checked. -/
def ubusdev_bridge_enable_member (ubr : ubusdev_bridge) (mname : String)
    (claim_ret : Int) (inv_ret : Nat) : ubusdev_bridge × Effects :=
  match findMember ubr.members mname with
  | none => (ubr, eff0)
  | some ubm =>
    if !ubm.present then (ubr, eff0)
    else
      let eClaim : Effects := { claims := 1 }
      if claim_ret < 0 then (member_enable_error ubr mname, eClaim)
      else if !ubr.present ∨ ubr.sync ≠ STATE_SYNCHRONIZED then
        (member_enable_error ubr mname, eClaim)
      else
        let e := Effects.merge eClaim { invoked := ["add"] }
        let ubr := { ubr with
          members := updMember ubr.members mname
            (fun m => ubusdev_bridge_member_set_timeout m
              STATE_PENDING_ADD) }
        if inv_ret ≠ 0 then
          (member_enable_error ubr mname,
           Effects.merge e ubusdev_invocation_error)
        else (ubr, e)

/-- ubusdev_bridge_retry_enable_members from src/ubusdev.c: reset
n_failed, then for every member that is not present while its underlying
device is present and its state is not yet synchronized, mark it present,
bump n_present and run ubusdev_bridge_enable_member on it. -/
def ubusdev_bridge_retry_enable_members (ubr : ubusdev_bridge)
    (claim_ret : Int) (inv_ret : Nat) : ubusdev_bridge × Effects :=
  let start : ubusdev_bridge × Effects := ({ ubr with n_failed := 0 }, eff0)
  (ubr.members.map (fun m => m.name)).foldl
    (fun acc n =>
      match findMember acc.1.members n with
      | none => acc
      | some cur =>
        if cur.present then acc
        else if !cur.dev_present then acc
        else if cur.sync = STATE_SYNCHRONIZED then acc
        else
          let b := { acc.1 with
            n_present := acc.1.n_present + 1
            members := updMember acc.1.members n
              (fun m => { m with present := true }) }
          let r := ubusdev_bridge_enable_member b n claim_ret inv_ret
          (r.1, Effects.merge acc.2 r.2))
    start

namespace Br

/-- ubusdev_set_sync from src/ubusdev.c, instantiated for a bridge: store
the state, cancel the retry timer when synchronized, and, because the
device type has bridge_capability, re-run the member enable pass whenever
n_failed is non-zero (the source does this for every target state). -/
def ubusdev_set_sync (ubr : ubusdev_bridge) (status : state_sync)
    (claim_ret : Int) (inv_ret : Nat) : ubusdev_bridge × Effects :=
  let ubr := { ubr with
    sync := status
    retry_armed := if status = STATE_SYNCHRONIZED then false
                   else ubr.retry_armed }
  if ubr.n_failed ≠ 0 then
    ubusdev_bridge_retry_enable_members ubr claim_ret inv_ret
  else (ubr, eff0)

/-- ubusdev_set_timeout from src/ubusdev.c for a bridge: set the sync
state (with its member retry pass) and arm the bridge retry timer. -/
def ubusdev_set_timeout (ubr : ubusdev_bridge) (status : state_sync)
    (claim_ret : Int) (inv_ret : Nat) : ubusdev_bridge × Effects :=
  let r := ubusdev_set_sync ubr status claim_ret inv_ret
  ({ r.1 with retry_armed := true }, r.2)

end Br

/-- ubusdev_bridge_disable_member from src/ubusdev.c, acting on the
member value: a member that is not present returns immediately;
otherwise the hotplug-remove method is invoked and on submission success
the member enters STATE_PENDING_REMOVE with its timer armed (on failure
only the invocation error is logged). -/
def ubusdev_bridge_disable_member_core (ubm : ubusdev_bridge_member)
    (inv_ret : Nat) : ubusdev_bridge_member × Effects :=
  if !ubm.present then (ubm, eff0)
  else if inv_ret ≠ 0 then
    (ubm, Effects.merge { invoked := ["remove"] } ubusdev_invocation_error)
  else
    (ubusdev_bridge_member_set_timeout ubm STATE_PENDING_REMOVE,
     { invoked := ["remove"] })

/-- ubusdev_bridge_disable_member lifted to the bridge whose members
vlist holds the member. -/
def ubusdev_bridge_disable_member (ubr : ubusdev_bridge) (mname : String)
    (inv_ret : Nat) : ubusdev_bridge × Effects :=
  match findMember ubr.members mname with
  | none => (ubr, eff0)
  | some ubm =>
    let r := ubusdev_bridge_disable_member_core ubm inv_ret
    ({ ubr with members := updMember ubr.members mname (fun _ => r.1) },
     r.2)

/-- ubusdev_bridge_disable_interface from src/ubusdev.c: invoke the free
method on the external handler; on submission success enter
STATE_PENDING_DISABLE with the bridge timer armed, on failure log the
invocation error and change nothing. -/
def ubusdev_bridge_disable_interface (ubr : ubusdev_bridge)
    (claim_ret : Int) (inv_ret : Nat) : ubusdev_bridge × Effects :=
  let e : Effects := { invoked := ["free"] }
  if inv_ret ≠ 0 then (ubr, Effects.merge e ubusdev_invocation_error)
  else
    let r := Br.ubusdev_set_timeout ubr STATE_PENDING_DISABLE claim_ret
      inv_ret
    (r.1, Effects.merge e r.2)

/-- ubusdev_bridge_remove_member from src/ubusdev.c, acting on a member
value together with its bridge: a member that is not present is left
alone; otherwise it is disabled when the bridge device is active, marked
not present, n_present is decremented and the bridge device is set not
present when no member remains present. -/
def ubusdev_bridge_remove_member_core (ubr : ubusdev_bridge)
    (ubm : ubusdev_bridge_member) (inv_ret : Nat) :
    ubusdev_bridge × ubusdev_bridge_member × Effects :=
  if !ubm.present then (ubr, ubm, eff0)
  else
    let r := if ubr.dev_active then
        ubusdev_bridge_disable_member_core ubm inv_ret
      else (ubm, eff0)
    let ubm := { r.1 with present := false }
    let ubr := { ubr with n_present := ubr.n_present - 1 }
    let ubr := if ubr.n_present = 0 then { ubr with present := false }
      else ubr
    (ubr, ubm, r.2)

/-- ubusdev_bridge_remove_member lifted to a member stored in the bridge
members vlist. -/
def ubusdev_bridge_remove_member (ubr : ubusdev_bridge) (mname : String)
    (inv_ret : Nat) : ubusdev_bridge × Effects :=
  match findMember ubr.members mname with
  | none => (ubr, eff0)
  | some ubm =>
    let r := ubusdev_bridge_remove_member_core ubr ubm inv_ret
    ({ r.1 with members := updMember r.1.members mname (fun _ => r.2.1) },
     r.2.2)

/-- ubusdev_bridge_free_member from src/ubusdev.c, acting on a member
value that has already been detached from the members vlist: run
ubusdev_bridge_remove_member, call device_remove_user, and when the
underlying device is present toggle its present flag (so a competing
bridge can re-claim it); finally the member is freed. -/
def ubusdev_bridge_free_member (ubr : ubusdev_bridge)
    (ubm : ubusdev_bridge_member) (inv_ret : Nat) :
    ubusdev_bridge × Effects :=
  let r := ubusdev_bridge_remove_member_core ubr ubm inv_ret
  let e := Effects.merge r.2.2 { remove_user := 1 }
  let e := if ubm.dev_present then Effects.merge e { toggles := 1 }
    else e
  (r.1, e)

/-- vlist_delete on the members vlist: detach the node by name and run
the removal callback ubusdev_bridge_member_update, which calls
ubusdev_bridge_free_member on the detached node. -/
def vlist_delete_member (ubr : ubusdev_bridge) (mname : String)
    (inv_ret : Nat) : ubusdev_bridge × Effects :=
  match findMember ubr.members mname with
  | none => (ubr, eff0)
  | some ubm =>
    let ubr := { ubr with
      members := ubr.members.filter (fun m => m.name ≠ mname) }
    ubusdev_bridge_free_member ubr ubm inv_ret

/-- vlist_update on the members vlist: start a new generation by
incrementing the tree version. -/
def vlist_update_members (ubr : ubusdev_bridge) : ubusdev_bridge :=
  { ubr with vlist_version := ubr.vlist_version + 1 }

/-- vlist_flush on the members vlist: every member whose node version is
older than the tree version is detached and freed through the removal
callback. -/
def vlist_flush_members (ubr : ubusdev_bridge) (inv_ret : Nat) :
    ubusdev_bridge × Effects :=
  let stale := ubr.members.filter
    (fun m => m.version ≠ ubr.vlist_version)
  let ubr := { ubr with
    members := ubr.members.filter
      (fun m => m.version = ubr.vlist_version) }
  stale.foldl
    (fun acc m =>
      let r := ubusdev_bridge_free_member acc.1 m inv_ret
      (r.1, Effects.merge acc.2 r.2))
    (ubr, eff0)

/-- vlist_flush_all on the members vlist: detach and free every member
through the removal callback. -/
def vlist_flush_all_members (ubr : ubusdev_bridge) (inv_ret : Nat) :
    ubusdev_bridge × Effects :=
  let old := ubr.members
  let ubr := { ubr with members := [] }
  old.foldl
    (fun acc m =>
      let r := ubusdev_bridge_free_member acc.1 m inv_ret
      (r.1, Effects.merge acc.2 r.2))
    (ubr, eff0)

/-- ubusdev_bridge_create_member from src/ubusdev.c: allocate a member
slot (present false, the given hotplug flag, STATE_PENDING_ADD, timer
unarmed, zero retries, node version = tree version) and vlist_add it.
The members vlist has keep_old set, so when a member with the same name
already exists the old slot is kept (its node version refreshed) and the
new allocation is freed by the update callback; on a fresh insert the
update callback binds the device user (device_add_user).  The function
returns the slot found by the final vlist_find re-lookup. -/
def ubusdev_bridge_create_member (ubr : ubusdev_bridge) (devname : String)
    (dev_present : Bool) (hotplug : Bool) :
    ubusdev_bridge × Option ubusdev_bridge_member × Effects :=
  let newm : ubusdev_bridge_member :=
    { name := devname
      present := false
      hotplug := hotplug
      sync := STATE_PENDING_ADD
      retry_armed := false
      retry_cnt := 0
      dev_present := dev_present
      version := ubr.vlist_version }
  match findMember ubr.members devname with
  | some _ =>
    let ubr := { ubr with
      members := updMember ubr.members devname
        (fun m => { m with version := ubr.vlist_version }) }
    (ubr, findMember ubr.members devname, eff0)
  | none =>
    let ubr := { ubr with members := ubr.members ++ [newm] }
    (ubr, findMember ubr.members devname, { add_user := 1 })

/-- ubusdev_bridge_add_member from src/ubusdev.c: device_get with create
semantics always yields a device in this model (dev_present is the
present flag the registry reports for it), then create a configured
(non-hotplug) member for it. -/
def ubusdev_bridge_add_member (ubr : ubusdev_bridge) (name : String)
    (dev_present : Bool) : ubusdev_bridge :=
  (ubusdev_bridge_create_member ubr name dev_present false).1

/-- ubusdev_bridge_set_down from src/ubusdev.c: call the preserved
set_state callback with false, disable every member, then disable the
bridge interface at the external handler. -/
def ubusdev_bridge_set_down (ubr : ubusdev_bridge) (claim_ret : Int)
    (inv_ret : Nat) : ubusdev_bridge × Effects :=
  let ubr := { ubr with sys_up := false }
  let r := (ubr.members.map (fun m => m.name)).foldl
    (fun acc n =>
      let s := ubusdev_bridge_disable_member acc.1 n inv_ret
      (s.1, Effects.merge acc.2 s.2))
    (ubr, eff0)
  let s := ubusdev_bridge_disable_interface r.1 claim_ret inv_ret
  (s.1, Effects.merge r.2 s.2)

/-- ubusdev_bridge_set_up from src/ubusdev.c: fail with -ENOENT when no
member is present and the bridge is not force_active; otherwise reset
n_failed and try to enable every member; when afterwards still no member
is present and the bridge is not force_active, disable the interface,
clear the present flag and fail with -ENOENT. -/
def ubusdev_bridge_set_up (ubr : ubusdev_bridge) (claim_ret : Int)
    (inv_ret : Nat) : ubusdev_bridge × Int × Effects :=
  if ubr.n_present = 0 ∧ !ubr.force_active then (ubr, -2, eff0)
  else
    let ubr := { ubr with n_failed := 0 }
    let r : ubusdev_bridge × Effects := (ubr.members.map (fun m => m.name)).foldl
      (fun acc n =>
        let s := ubusdev_bridge_enable_member acc.1 n claim_ret inv_ret
        (s.1, Effects.merge acc.2 s.2))
      (ubr, eff0)
    if r.1.force_active = false ∧ r.1.n_present = 0 then
      let s := ubusdev_bridge_disable_interface r.1 claim_ret inv_ret
      ({ s.1 with present := false }, -2, Effects.merge r.2 s.2)
    else (r.1, 0, r.2)

/-- ubusdev_bridge_member_cb from src/ubusdev.c, the device_user event
callback of a member.  On DEV_EVENT_ADD the member becomes present; if it
is the first present member the create method is invoked on the external
handler (its submission status is not checked) and the bridge enters
STATE_PENDING_CREATE with the timer armed, otherwise the member is
enabled.  On DEV_EVENT_REMOVE a hotplug device_user is vlist-deleted,
a present member is removed. -/
def ubusdev_bridge_member_cb (ubr : ubusdev_bridge) (mname : String)
    (event : device_event) (usr_hotplug : Bool) (claim_ret : Int)
    (inv_ret : Nat) : ubusdev_bridge × Effects :=
  match findMember ubr.members mname with
  | none => (ubr, eff0)
  | some ubm =>
    match event with
    | DEV_EVENT_ADD =>
      let ubr := { ubr with
        n_present := ubr.n_present + 1
        members := updMember ubr.members mname
          (fun m => { m with present := true }) }
      if ubr.n_present = 1 then
        let r := Br.ubusdev_set_timeout ubr STATE_PENDING_CREATE claim_ret
          inv_ret
        (r.1, Effects.merge { invoked := ["create"] } r.2)
      else ubusdev_bridge_enable_member ubr mname claim_ret inv_ret
    | DEV_EVENT_REMOVE =>
      if usr_hotplug then vlist_delete_member ubr mname inv_ret
      else if ubm.present then
        ubusdev_bridge_remove_member ubr mname inv_ret
      else (ubr, eff0)
    | DEV_EVENT_OTHER => (ubr, eff0)

/-- ubusdev_hotplug_add from src/ubusdev.c: refuse with
UBUS_STATUS_NOT_SUPPORTED on a type without bridge_capability, refuse
with UBUS_STATUS_NOT_FOUND (and a warning) when the binding is not
subscribed, otherwise create a member slot with the hotplug flag set and
return 0.  The source neither calls device_lock nor invokes any method
of the external handler on this path. -/
def ubusdev_hotplug_add (bridge_capability : Bool) (subscribed : Bool)
    (ubr : ubusdev_bridge) (member_devname : String)
    (member_dev_present : Bool) : ubusdev_bridge × Nat × Effects :=
  if !bridge_capability then (ubr, UBUS_STATUS_NOT_SUPPORTED, eff0)
  else
    match ubusdev_check_subscribed subscribed with
    | (false, e) => (ubr, UBUS_STATUS_NOT_FOUND, e)
    | (true, e) =>
      let r := ubusdev_bridge_create_member ubr member_devname
        member_dev_present true
      match r.2.1 with
      | none => (r.1, UBUS_STATUS_UNKNOWN_ERROR, Effects.merge e r.2.2)
      | some _ => (r.1, 0, Effects.merge e r.2.2)

/-- ubusdev_hotplug_remove from src/ubusdev.c: capability and
subscription guards, then vlist_find the member by name (refusing with
UBUS_STATUS_NOT_FOUND when absent) and vlist_delete it. -/
def ubusdev_hotplug_remove (bridge_capability : Bool) (subscribed : Bool)
    (ubr : ubusdev_bridge) (member_devname : String) (inv_ret : Nat) :
    ubusdev_bridge × Nat × Effects :=
  if !bridge_capability then (ubr, UBUS_STATUS_NOT_SUPPORTED, eff0)
  else
    match ubusdev_check_subscribed subscribed with
    | (false, e) => (ubr, UBUS_STATUS_NOT_FOUND, e)
    | (true, e) =>
      match findMember ubr.members member_devname with
      | none => (ubr, UBUS_STATUS_NOT_FOUND, e)
      | some _ =>
        let r := vlist_delete_member ubr member_devname inv_ret
        (r.1, 0, Effects.merge e r.2)

/-- ubusdev_hotplug_prepare from src/ubusdev.c: refuse with
UBUS_STATUS_NOT_SUPPORTED on a type without bridge_capability; the
source performs no subscription check on this path (the subscribed
argument is unused), it directly invokes the prepare method and on
submission success enters STATE_PENDING_PREPARE with the timer armed. -/
def ubusdev_hotplug_prepare (bridge_capability : Bool)
    (subscribed : Bool) (ubr : ubusdev_bridge) (claim_ret : Int)
    (inv_ret : Nat) : ubusdev_bridge × Nat × Effects :=
  if !bridge_capability then (ubr, UBUS_STATUS_NOT_SUPPORTED, eff0)
  else
    let e : Effects := { invoked := ["prepare"] }
    if inv_ret ≠ 0 then
      (ubr, inv_ret, Effects.merge e ubusdev_invocation_error)
    else
      let r := Br.ubusdev_set_timeout ubr STATE_PENDING_PREPARE claim_ret
        inv_ret
      (r.1, 0, Effects.merge e r.2)

/-- ubusdev_bridge_reload from src/ubusdev.c.  The blobmsg parse of the
new config is reflected by cfg_empty and cfg_ifnames; diff is the result
of uci_blob_diff against the stored config.  When the empty flag is set
the interface names are ignored; when a config is already stored the
reload method is invoked (submission failure reports
DEV_CONFIG_NO_CHANGE and keeps the old config, success enters
STATE_PENDING_RELOAD and stores the new config); on the very first call
the config is only stored and DEV_CONFIG_APPLIED is returned. -/
def ubusdev_bridge_reload (ubr : ubusdev_bridge) (cfg_empty : Bool)
    (cfg_ifnames : Option (List String)) (diff : Bool) (claim_ret : Int)
    (inv_ret : Nat) : ubusdev_bridge × dev_change_type × Effects :=
  let ubr := if cfg_empty then { ubr with empty := true }
    else { ubr with ifnames := cfg_ifnames }
  if ubr.has_config then
    let ret := if diff then DEV_CONFIG_RESTART else DEV_CONFIG_APPLIED
    let e : Effects := { invoked := ["reload"] }
    if inv_ret ≠ 0 then (ubr, DEV_CONFIG_NO_CHANGE, e)
    else
      let r := Br.ubusdev_set_timeout ubr STATE_PENDING_RELOAD claim_ret
        inv_ret
      (r.1, ret, Effects.merge e r.2)
  else ({ ubr with has_config := true }, DEV_CONFIG_APPLIED, eff0)

/-- Function _ubusdev_bridge_create from src/ubusdev.c: the calloc-zeroed
wrapper (enum value 0 is STATE_SYNCHRONIZED) with config_pending set,
the set_state callback swapped, and the initial ubusdev_bridge_reload
call that stores the given config. -/
def _ubusdev_bridge_create (name : String) (cfg_empty : Bool)
    (cfg_ifnames : Option (List String)) : ubusdev_bridge :=
  let ubr : ubusdev_bridge :=
    { ifname := name
      sync := STATE_SYNCHRONIZED
      retry_cnt := 0
      retry_armed := false
      present := false
      dev_active := false
      sys_up := false
      config_pending := true
      empty := false
      ifnames := none
      active := false
      force_active := false
      n_present := 0
      n_failed := 0
      has_config := false
      vlist_version := 0
      members := [] }
  (ubusdev_bridge_reload ubr cfg_empty cfg_ifnames false 0 0).1

/-- Body of _ubusdev_bridge_config_init from src/ubusdev.c after the
initial empty check: n_failed is reset and a new vlist generation
starts; when interface names are configured a member slot is added for
each (dev_present_of tells whether the registry device of that name is
present), otherwise an empty bridge invokes create immediately
(submission failure jumps to the error label, skipping the vlist flush;
success enters STATE_PENDING_CREATE).  Finally the members vlist is
flushed. -/
def _ubusdev_bridge_config_init_core (ubr : ubusdev_bridge)
    (dev_present_of : String → Bool) (claim_ret : Int) (inv_ret : Nat) :
    ubusdev_bridge × Effects :=
  let ubr := vlist_update_members { ubr with n_failed := 0 }
  match ubr.ifnames with
  | some names =>
    let ubr := names.foldl
      (fun b n => ubusdev_bridge_add_member b n (dev_present_of n)) ubr
    let r := vlist_flush_members ubr inv_ret
    (r.1, r.2)
  | none =>
    if ubr.empty then
      let e : Effects := { invoked := ["create"] }
      if inv_ret ≠ 0 then (ubr, e)
      else
        let r := Br.ubusdev_set_timeout ubr STATE_PENDING_CREATE claim_ret
          inv_ret
        let s := vlist_flush_members r.1 inv_ret
        (s.1, Effects.merge e (Effects.merge r.2 s.2))
    else
      let r := vlist_flush_members ubr inv_ret
      (r.1, r.2)

/-- Function _ubusdev_bridge_config_init from src/ubusdev.c: an empty
bridge becomes force_active, then the body above runs. -/
def _ubusdev_bridge_config_init (ubr : ubusdev_bridge)
    (dev_present_of : String → Bool) (claim_ret : Int) (inv_ret : Nat) :
    ubusdev_bridge × Effects :=
  let ubr := if ubr.empty then { ubr with force_active := true } else ubr
  _ubusdev_bridge_config_init_core ubr dev_present_of claim_ret inv_ret

/-- ubusdev_bridge_timeout_cb from src/ubusdev.c (retry timer of a
bridge).  The timer fired, so it is disarmed on entry.  The retry counter
is post-incremented; at UBUSDEV_MAX_RETRY_CNT the callback logs one
critical line and stops.  Otherwise the method of the current pending
state is re-invoked (create and reload resend the stored config,
disable and free rebuild a name payload, prepare a bridge payload); on
submission success the timer is re-armed, on failure only the invocation
error is logged (no re-arm).  Other states return without re-arming. -/
def ubusdev_bridge_timeout_cb (ubr : ubusdev_bridge) (inv_ret : Nat) :
    ubusdev_bridge × Effects :=
  let ubr := { ubr with retry_armed := false }
  if ubr.retry_cnt = UBUSDEV_MAX_RETRY_CNT then
    ({ ubr with retry_cnt := ubr.retry_cnt + 1 }, { crit := 1 })
  else
    let ubr := { ubr with retry_cnt := ubr.retry_cnt + 1 }
    let method : Option String :=
      match ubr.sync with
      | STATE_PENDING_CREATE => some "create"
      | STATE_PENDING_RELOAD => some "reload"
      | STATE_PENDING_DISABLE => some "free"
      | STATE_PENDING_FREE => some "free"
      | STATE_PENDING_PREPARE => some "prepare"
      | _ => none
    match method with
    | none => (ubr, eff0)
    | some m =>
      if inv_ret ≠ 0 then
        (ubr, Effects.merge { invoked := [m] } ubusdev_invocation_error)
      else ({ ubr with retry_armed := true }, { invoked := [m] })

/-- ubusdev_bridge_member_timeout_cb from src/ubusdev.c (retry timer of
a bridge member).  The member timer fired, so it is disarmed on entry.
The member retry counter is post-incremented; at UBUSDEV_MAX_RETRY_CNT
the callback logs one critical line, releases the device user and stops.
Otherwise STATE_PENDING_ADD re-runs the member enable pass of the parent
bridge, STATE_PENDING_REMOVE re-invokes hotplug remove (re-arming the
member timer on submission success, logging the invocation error on
failure); other states do nothing. -/
def ubusdev_bridge_member_timeout_cb (ubr : ubusdev_bridge)
    (mname : String) (claim_ret : Int) (inv_ret : Nat) :
    ubusdev_bridge × Effects :=
  match findMember ubr.members mname with
  | none => (ubr, eff0)
  | some ubm =>
    if ubm.retry_cnt = UBUSDEV_MAX_RETRY_CNT then
      ({ ubr with
         members := updMember ubr.members mname
           (fun m => { m with
             retry_armed := false
             retry_cnt := m.retry_cnt + 1 }) },
       { crit := 1, released := 1 })
    else
      let ubr := { ubr with
        members := updMember ubr.members mname
          (fun m => { m with
            retry_armed := false
            retry_cnt := m.retry_cnt + 1 }) }
      match ubm.sync with
      | STATE_PENDING_ADD =>
        ubusdev_bridge_retry_enable_members ubr claim_ret inv_ret
      | STATE_PENDING_REMOVE =>
        if inv_ret ≠ 0 then
          (ubr,
           Effects.merge { invoked := ["remove"] }
             ubusdev_invocation_error)
        else
          ({ ubr with
             members := updMember ubr.members mname
               (fun m => { m with retry_armed := true }) },
           { invoked := ["remove"] })
      | _ => (ubr, eff0)

/-- Function _ubusdev_bridge_handle_create_notification from
src/ubusdev.c.  A bridge that is not in STATE_PENDING_CREATE is left
untouched (return 0).  Otherwise the active flag is set, the bridge
becomes synchronized (running the member retry pass when n_failed is
non-zero), the preserved set_state callback is called with true (its
result is set_state_ret; the modelled system interface state follows
it), on a negative result the bridge is set down again, and finally the
bridge device is set present.  The handler returns set_state_ret. -/
def _ubusdev_bridge_handle_create_notification (ubr : ubusdev_bridge)
    (set_state_ret : Int) (claim_ret : Int) (inv_ret : Nat) :
    ubusdev_bridge × Int × Effects :=
  if ubr.sync ≠ STATE_PENDING_CREATE then (ubr, 0, eff0)
  else
    let ubr := { ubr with active := true }
    let r := Br.ubusdev_set_sync ubr STATE_SYNCHRONIZED claim_ret inv_ret
    let ubr := { r.1 with sys_up := decide (0 ≤ set_state_ret) }
    let s := if set_state_ret < 0 then
        ubusdev_bridge_set_down ubr claim_ret inv_ret
      else (ubr, eff0)
    ({ s.1 with present := true }, set_state_ret,
     Effects.merge r.2 s.2)

namespace Br

/-- ubusdev_handle_create_notification from src/ubusdev.c, bridge
branch, with the registry entry for the named device modelled as an
Option (device_get returning NULL makes the handler return 0). -/
def ubusdev_handle_create_notification (st : Option ubusdev_bridge)
    (set_state_ret : Int) (claim_ret : Int) (inv_ret : Nat) :
    Option ubusdev_bridge × Int × Effects :=
  match st with
  | none => (none, 0, eff0)
  | some ubr =>
    let r := _ubusdev_bridge_handle_create_notification ubr set_state_ret
      claim_ret inv_ret
    (some r.1, r.2.1, r.2.2)

/-- ubusdev_handle_reload_notification from src/ubusdev.c applied to a
bridge: a missing device yields UBUS_STATUS_NOT_FOUND; a bridge in
STATE_PENDING_RELOAD becomes synchronized (bridge instantiation of
ubusdev_set_sync, including the member retry pass) and present. -/
def ubusdev_handle_reload_notification (st : Option ubusdev_bridge)
    (claim_ret : Int) (inv_ret : Nat) :
    Option ubusdev_bridge × Nat × Effects :=
  match st with
  | none => (none, UBUS_STATUS_NOT_FOUND, eff0)
  | some ubr =>
    if ubr.sync = STATE_PENDING_RELOAD then
      let r := ubusdev_set_sync ubr STATE_SYNCHRONIZED claim_ret inv_ret
      (some { r.1 with present := true }, 0, r.2)
    else (some ubr, 0, eff0)

/-- ubusdev_handle_free_notification from src/ubusdev.c, bridge branch:
a missing device yields UBUS_STATUS_INVALID_ARGUMENT; a bridge in
STATE_PENDING_DISABLE is merely deactivated (active cleared, state
synchronized) and kept; any other bridge is destroyed: its members vlist
is flushed entirely and the wrapper is freed, removing the entry. -/
def ubusdev_handle_free_notification (st : Option ubusdev_bridge)
    (claim_ret : Int) (inv_ret : Nat) :
    Option ubusdev_bridge × Nat × Effects :=
  match st with
  | none => (none, UBUS_STATUS_INVALID_ARGUMENT, eff0)
  | some ubr =>
    if ubr.sync = STATE_PENDING_DISABLE then
      let ubr := { ubr with active := false }
      let r := ubusdev_set_sync ubr STATE_SYNCHRONIZED claim_ret inv_ret
      (some r.1, 0, r.2)
    else
      let r := vlist_flush_all_members ubr inv_ret
      (none, 0, r.2)

/-- ubusdev_free from src/ubusdev.c applied to a bridge: the
subscription guard, the free invocation and, on submission success,
STATE_PENDING_FREE with the bridge timer armed (through the bridge
instantiation of ubusdev_set_timeout).  As for plain devices, the
missing return before the error label emits the invocation-error
critical log on the success path too. -/
def ubusdev_free (subscribed : Bool) (ubr : ubusdev_bridge)
    (claim_ret : Int) (inv_ret : Nat) : ubusdev_bridge × Effects :=
  match ubusdev_check_subscribed subscribed with
  | (false, e) => (ubr, e)
  | (true, e) =>
    let e := Effects.merge e { invoked := ["free"] }
    if inv_ret ≠ 0 then
      (ubr, Effects.merge e ubusdev_invocation_error)
    else
      let r := ubusdev_set_timeout ubr STATE_PENDING_FREE claim_ret
        inv_ret
      (r.1, Effects.merge (Effects.merge e r.2) ubusdev_invocation_error)

/-- ubusdev_config_init from src/ubusdev.c for a bridge-capable type:
the subscription guard in front of _ubusdev_bridge_config_init (for an
unsubscribed binding nothing happens beyond the warning). -/
def ubusdev_config_init (subscribed : Bool) (ubr : ubusdev_bridge)
    (dev_present_of : String → Bool) (claim_ret : Int) (inv_ret : Nat) :
    ubusdev_bridge × Effects :=
  match ubusdev_check_subscribed subscribed with
  | (false, e) => (ubr, e)
  | (true, e) =>
    let r := _ubusdev_bridge_config_init ubr dev_present_of claim_ret
      inv_ret
    (r.1, Effects.merge e r.2)

end Br

/-- ubusdev_handle_hotplug_prepare_notification from src/ubusdev.c for a
bridge-capable type: a missing device yields
UBUS_STATUS_INVALID_ARGUMENT; a bridge that is not in
STATE_PENDING_PREPARE is left untouched; otherwise it becomes
synchronized, force_active and present. -/
def ubusdev_handle_hotplug_prepare_notification
    (st : Option ubusdev_bridge) (claim_ret : Int) (inv_ret : Nat) :
    Option ubusdev_bridge × Nat × Effects :=
  match st with
  | none => (none, UBUS_STATUS_INVALID_ARGUMENT, eff0)
  | some ubr =>
    if ubr.sync ≠ STATE_PENDING_PREPARE then (some ubr, 0, eff0)
    else
      let r := Br.ubusdev_set_sync ubr STATE_SYNCHRONIZED claim_ret
        inv_ret
      (some { r.1 with force_active := true, present := true }, 0, r.2)

/-- ubusdev_handle_hotplug_add_notification from src/ubusdev.c.  The
bridge registry entry is the Option state; member_dev is the device_get
result for the member name (none = NULL, yielding
UBUS_STATUS_NOT_FOUND; some carries the present flag of that device).
When the member slot does not exist in the bridge it is created as a
hotplug member and the handler returns 0; an existing slot that is not
in STATE_PENDING_ADD is left untouched; otherwise the member becomes
synchronized and a topology change is broadcast. -/
def ubusdev_handle_hotplug_add_notification (st : Option ubusdev_bridge)
    (member_name : String) (member_dev : Option Bool) :
    Option ubusdev_bridge × Nat × Effects :=
  match st with
  | none => (none, UBUS_STATUS_INVALID_ARGUMENT, eff0)
  | some ubr =>
    match member_dev with
    | none => (some ubr, UBUS_STATUS_NOT_FOUND, eff0)
    | some dev_present =>
      match findMember ubr.members member_name with
      | none =>
        let r := ubusdev_bridge_create_member ubr member_name dev_present
          true
        (some r.1, 0, r.2.2)
      | some ubm =>
        if ubm.sync ≠ STATE_PENDING_ADD then (some ubr, 0, eff0)
        else
          (some { ubr with
             members := updMember ubr.members member_name
               (fun m => ubusdev_bridge_member_set_sync m
                 STATE_SYNCHRONIZED) },
           0, { broadcasts := 1 })

/-- ubusdev_handle_hotplug_remove_notification from src/ubusdev.c: a
missing bridge or a missing member slot yields
UBUS_STATUS_INVALID_ARGUMENT; a member that is not in
STATE_PENDING_REMOVE is left untouched; otherwise it becomes
synchronized, its device user is released and a topology change is
broadcast. -/
def ubusdev_handle_hotplug_remove_notification
    (st : Option ubusdev_bridge) (member_name : String) :
    Option ubusdev_bridge × Nat × Effects :=
  match st with
  | none => (none, UBUS_STATUS_INVALID_ARGUMENT, eff0)
  | some ubr =>
    match findMember ubr.members member_name with
    | none => (some ubr, UBUS_STATUS_INVALID_ARGUMENT, eff0)
    | some ubm =>
      if ubm.sync ≠ STATE_PENDING_REMOVE then (some ubr, 0, eff0)
      else
        (some { ubr with
           members := updMember ubr.members member_name
             (fun m => ubusdev_bridge_member_set_sync m
               STATE_SYNCHRONIZED) },
         0, { released := 1, broadcasts := 1 })

/-- ubusdev_dump_info from src/ubusdev.c, reduced to its guard and
invocation behaviour: refuse with a warning when unsubscribed, otherwise
invoke dump_info synchronously (the reply projection writes only into
the output buffer of the caller). -/
def ubusdev_dump_info (subscribed : Bool) : Effects :=
  match ubusdev_check_subscribed subscribed with
  | (false, e) => e
  | (true, e) => Effects.merge e { invoked := ["dump_info"] }

/-- ubusdev_dump_stats from src/ubusdev.c, reduced to its guard and
invocation behaviour. -/
def ubusdev_dump_stats (subscribed : Bool) : Effects :=
  match ubusdev_check_subscribed subscribed with
  | (false, e) => e
  | (true, e) => Effects.merge e { invoked := ["dump_stats"] }

/-- A notification payload: the blobmsg attribute list, as key-value
string pairs. -/
def NotifMsg := List (String × String)

/-- blobmsg_parse for a single string field: the value of the first
attribute with the given name. -/
def blobmsg_lookup (msg : NotifMsg) (key : String) : Option String :=
  (msg.find? (fun p => p.1 = key)).map (fun p => p.2)

/-- Function _ubusdev_parse_dev_notification from src/ubusdev.c: extract
the mandatory name field. -/
def _ubusdev_parse_dev_notification (msg : NotifMsg) : Option String :=
  blobmsg_lookup msg "name"

/-- Function _ubusdev_parse_hotplug_notification from src/ubusdev.c:
extract the mandatory bridge and member fields; any missing field is an
UBUS_STATUS_INVALID_ARGUMENT failure. -/
def _ubusdev_parse_hotplug_notification (msg : NotifMsg) :
    Option (String × String) :=
  match blobmsg_lookup msg "bridge", blobmsg_lookup msg "member" with
  | some b, some m => some (b, m)
  | _, _ => none

/-- The routing decision of the notification dispatcher: which handler
runs, with its parsed arguments. -/
inductive NotifRoute where
  | dev_handler (handler : String) (name : String)
  | hotplug_handler (handler : String) (bridge : String) (member : String)
deriving DecidableEq, Repr

/-- ubusdev_handle_notification from src/ubusdev.c, the subscription
notification dispatcher, up to the point where the routed handler runs:
a type string other than create, reload, free, prepare, add or remove is
refused with UBUS_STATUS_NOT_SUPPORTED; the four device-level types
require a name field and the two hotplug types require bridge and member
fields, refusing with UBUS_STATUS_INVALID_ARGUMENT when missing;
otherwise the parsed arguments are passed to the selected handler. -/
def ubusdev_handle_notification (ty : String) (msg : NotifMsg) :
    Except Nat NotifRoute :=
  let dev_handler : Option String :=
    if ty = "create" then some "ubusdev_handle_create_notification"
    else if ty = "reload" then some "ubusdev_handle_reload_notification"
    else if ty = "free" then some "ubusdev_handle_free_notification"
    else if ty = "prepare" then
      some "ubusdev_handle_hotplug_prepare_notification"
    else none
  let hotplug_handler : Option String :=
    if ty = "add" then some "ubusdev_handle_hotplug_add_notification"
    else if ty = "remove" then
      some "ubusdev_handle_hotplug_remove_notification"
    else none
  match dev_handler, hotplug_handler with
  | none, none => Except.error UBUS_STATUS_NOT_SUPPORTED
  | some h, _ =>
    match _ubusdev_parse_dev_notification msg with
    | none => Except.error UBUS_STATUS_INVALID_ARGUMENT
    | some n => Except.ok (NotifRoute.dev_handler h n)
  | none, some h =>
    match _ubusdev_parse_hotplug_notification msg with
    | none => Except.error UBUS_STATUS_INVALID_ARGUMENT
    | some bm => Except.ok (NotifRoute.hotplug_handler h bm.1 bm.2)

/-- One controller entry point acting on a bridge, with the transport
and registry results it consumes carried as fields: every daemon-side
operation, timer callback, device_user event and inbound notification
that can touch a ubusdev_bridge in src/ubusdev.c. -/
inductive br_op where
  | op_set_up (c : Int) (i : Nat)
  | op_set_down (c : Int) (i : Nat)
  | op_reload (ce : Bool) (ifn : Option (List String)) (d : Bool)
      (c : Int) (i : Nat)
  | op_config_init (s : Bool) (dp : String → Bool) (c : Int) (i : Nat)
  | op_free (s : Bool) (c : Int) (i : Nat)
  | op_hotplug_add (cap : Bool) (s : Bool) (m : String) (dp : Bool)
  | op_hotplug_remove (cap : Bool) (s : Bool) (m : String) (i : Nat)
  | op_hotplug_prep (cap : Bool) (s : Bool) (c : Int) (i : Nat)
  | op_member_cb (m : String) (ev : device_event) (uh : Bool) (c : Int)
      (i : Nat)
  | op_timeout (i : Nat)
  | op_member_timeout (m : String) (c : Int) (i : Nat)
  | op_create_notif (ss : Int) (c : Int) (i : Nat)
  | op_reload_notif (c : Int) (i : Nat)
  | op_free_notif (c : Int) (i : Nat)
  | op_prepare_notif (c : Int) (i : Nat)
  | op_add_notif (m : String) (md : Option Bool)
  | op_remove_notif (m : String)

/-- The state transition of one controller entry point on the registry
entry of a bridge (none = no such device; a late operation on a missing
device is a no-op, as device_get returns NULL). -/
def br_apply (op : br_op) (st : Option ubusdev_bridge) :
    Option ubusdev_bridge :=
  match st with
  | none => none
  | some b =>
    match op with
    | br_op.op_set_up c i => some (ubusdev_bridge_set_up b c i).1
    | br_op.op_set_down c i => some (ubusdev_bridge_set_down b c i).1
    | br_op.op_reload ce ifn d c i =>
      some (ubusdev_bridge_reload b ce ifn d c i).1
    | br_op.op_config_init s dp c i =>
      some (Br.ubusdev_config_init s b dp c i).1
    | br_op.op_free s c i => some (Br.ubusdev_free s b c i).1
    | br_op.op_hotplug_add cap s m dp =>
      some (ubusdev_hotplug_add cap s b m dp).1
    | br_op.op_hotplug_remove cap s m i =>
      some (ubusdev_hotplug_remove cap s b m i).1
    | br_op.op_hotplug_prep cap s c i =>
      some (ubusdev_hotplug_prepare cap s b c i).1
    | br_op.op_member_cb m ev uh c i =>
      some (ubusdev_bridge_member_cb b m ev uh c i).1
    | br_op.op_timeout i => some (ubusdev_bridge_timeout_cb b i).1
    | br_op.op_member_timeout m c i =>
      some (ubusdev_bridge_member_timeout_cb b m c i).1
    | br_op.op_create_notif ss c i =>
      (Br.ubusdev_handle_create_notification (some b) ss c i).1
    | br_op.op_reload_notif c i =>
      (Br.ubusdev_handle_reload_notification (some b) c i).1
    | br_op.op_free_notif c i =>
      (Br.ubusdev_handle_free_notification (some b) c i).1
    | br_op.op_prepare_notif c i =>
      (ubusdev_handle_hotplug_prepare_notification (some b) c i).1
    | br_op.op_add_notif m md =>
      (ubusdev_handle_hotplug_add_notification (some b) m md).1
    | br_op.op_remove_notif m =>
      (ubusdev_handle_hotplug_remove_notification (some b) m).1

/-- Discriminator: the op is the create notification. -/
def br_op.is_create_notif : br_op → Prop
  | br_op.op_create_notif _ _ _ => True
  | _ => False

/-- Discriminator: the op is the free notification. -/
def br_op.is_free_notif : br_op → Prop
  | br_op.op_free_notif _ _ => True
  | _ => False

/-- Fold preservation helper: a property stable under the folded step
holds for the fold result. -/
theorem foldl_preserve {α : Type _} {β : Type _} (P : α → Prop)
    (f : α → β → α) (hf : ∀ a b, P a → P (f a b)) :
    ∀ (l : List β) (a : α), P a → P (l.foldl f a) := by
  intro l
  induction l with
  | nil => intro a ha; exact ha
  | cons x xs ih =>
    intro a ha
    exact ih _ (hf _ _ ha)

/-- The member enable path only rewrites the members vlist and the
n_present and n_failed counters of the bridge; every other bridge field
is untouched. -/
theorem ubusdev_bridge_enable_member_frame (b : ubusdev_bridge)
    (m : String) (c : Int) (i : Nat) :
    ∃ ms np nf, (ubusdev_bridge_enable_member b m c i).1 =
      { b with members := ms, n_present := np, n_failed := nf } := by
  unfold ubusdev_bridge_enable_member member_enable_error
  cases findMember b.members m with
  | none => exact ⟨_, _, _, rfl⟩
  | some u =>
    dsimp only
    split
    · exact ⟨_, _, _, rfl⟩
    · split
      · exact ⟨_, _, _, rfl⟩
      · split
        · exact ⟨_, _, _, rfl⟩
        · split
          · exact ⟨_, _, _, rfl⟩
          · exact ⟨_, _, _, rfl⟩

/-- The member retry pass only rewrites the members vlist and the
n_present and n_failed counters of the bridge. -/
theorem ubusdev_bridge_retry_enable_members_frame (b : ubusdev_bridge)
    (c : Int) (i : Nat) :
    ∃ ms np nf, (ubusdev_bridge_retry_enable_members b c i).1 =
      { b with members := ms, n_present := np, n_failed := nf } := by
  unfold ubusdev_bridge_retry_enable_members
  apply foldl_preserve
    (fun acc : ubusdev_bridge × Effects =>
      ∃ ms np nf, acc.1 =
        { b with members := ms, n_present := np, n_failed := nf })
  · intro acc n hacc
    obtain ⟨ms, np, nf, h1⟩ := hacc
    dsimp only
    cases findMember acc.1.members n with
    | none => exact ⟨ms, np, nf, h1⟩
    | some cur =>
      dsimp only
      split
      · exact ⟨ms, np, nf, h1⟩
      · split
        · exact ⟨ms, np, nf, h1⟩
        · split
          · exact ⟨ms, np, nf, h1⟩
          · obtain ⟨ms2, np2, nf2, h2⟩ :=
              ubusdev_bridge_enable_member_frame
                { acc.1 with
                  n_present := acc.1.n_present + 1
                  members := updMember acc.1.members n
                    (fun mm => { mm with present := true }) } n c i
            refine ⟨ms2, np2, nf2, ?_⟩
            rw [h2, h1]
  · exact ⟨_, _, _, rfl⟩

/-- Bridge instantiation of ubusdev_set_sync: the resulting sync state
is the requested one, the timer is disarmed exactly for
STATE_SYNCHRONIZED, the retry counter and the active flag are
untouched. -/
theorem Br_set_sync_fields (b : ubusdev_bridge) (st : state_sync)
    (c : Int) (i : Nat) :
    (Br.ubusdev_set_sync b st c i).1.sync = st ∧
    (Br.ubusdev_set_sync b st c i).1.retry_armed =
      (if st = STATE_SYNCHRONIZED then false else b.retry_armed) ∧
    (Br.ubusdev_set_sync b st c i).1.retry_cnt = b.retry_cnt ∧
    (Br.ubusdev_set_sync b st c i).1.active = b.active := by
  unfold Br.ubusdev_set_sync
  dsimp only
  split
  · obtain ⟨ms, np, nf, h⟩ :=
      ubusdev_bridge_retry_enable_members_frame
        { b with
          sync := st
          retry_armed := if st = STATE_SYNCHRONIZED then false
                         else b.retry_armed } c i
    rw [h]
    exact ⟨rfl, rfl, rfl, rfl⟩
  · exact ⟨rfl, rfl, rfl, rfl⟩

/-- Bridge instantiation of ubusdev_set_timeout: the resulting sync
state is the requested one, the timer is armed, the retry counter and
the active flag are untouched. -/
theorem Br_set_timeout_fields (b : ubusdev_bridge) (st : state_sync)
    (c : Int) (i : Nat) :
    (Br.ubusdev_set_timeout b st c i).1.sync = st ∧
    (Br.ubusdev_set_timeout b st c i).1.retry_armed = true ∧
    (Br.ubusdev_set_timeout b st c i).1.retry_cnt = b.retry_cnt ∧
    (Br.ubusdev_set_timeout b st c i).1.active = b.active := by
  unfold Br.ubusdev_set_timeout
  obtain ⟨h1, h2, h3, h4⟩ := Br_set_sync_fields b st c i
  dsimp only
  exact ⟨h1, rfl, h3, h4⟩

/-- Disabling a member only rewrites the members vlist of the bridge. -/
theorem ubusdev_bridge_disable_member_frame (b : ubusdev_bridge)
    (m : String) (i : Nat) :
    ∃ ms, (ubusdev_bridge_disable_member b m i).1 =
      { b with members := ms } := by
  unfold ubusdev_bridge_disable_member
  cases findMember b.members m with
  | none => exact ⟨_, rfl⟩
  | some u => exact ⟨_, rfl⟩

/-- ubusdev_bridge_disable_interface: on submission failure the bridge
is unchanged; on success only sync (now STATE_PENDING_DISABLE), the
armed timer and the fields of the member retry pass change — the active
flag and the retry counter are untouched in either case. -/
theorem ubusdev_bridge_disable_interface_fields (b : ubusdev_bridge)
    (c : Int) (i : Nat) :
    ((ubusdev_bridge_disable_interface b c i).1.sync = b.sync ∨
      (ubusdev_bridge_disable_interface b c i).1.sync =
        STATE_PENDING_DISABLE) ∧
    (ubusdev_bridge_disable_interface b c i).1.active = b.active ∧
    (ubusdev_bridge_disable_interface b c i).1.retry_cnt =
      b.retry_cnt := by
  unfold ubusdev_bridge_disable_interface
  dsimp only
  split
  · exact ⟨Or.inl rfl, rfl, rfl⟩
  · obtain ⟨h1, _h2, h3, h4⟩ :=
      Br_set_timeout_fields b STATE_PENDING_DISABLE c i
    exact ⟨Or.inr h1, h4, h3⟩

/-- ubusdev_bridge_remove_member_core only rewrites n_present and the
present flag of the bridge. -/
theorem ubusdev_bridge_remove_member_core_frame (b : ubusdev_bridge)
    (u : ubusdev_bridge_member) (i : Nat) :
    ∃ np pr, (ubusdev_bridge_remove_member_core b u i).1 =
      { b with n_present := np, present := pr } := by
  unfold ubusdev_bridge_remove_member_core
  dsimp only
  split
  · exact ⟨_, _, rfl⟩
  · split
    · exact ⟨_, _, rfl⟩
    · exact ⟨_, _, rfl⟩

/-- ubusdev_bridge_remove_member only rewrites the members vlist,
n_present and the present flag of the bridge. -/
theorem ubusdev_bridge_remove_member_frame (b : ubusdev_bridge)
    (m : String) (i : Nat) :
    ∃ ms np pr, (ubusdev_bridge_remove_member b m i).1 =
      { b with members := ms, n_present := np, present := pr } := by
  unfold ubusdev_bridge_remove_member
  cases findMember b.members m with
  | none => exact ⟨_, _, _, rfl⟩
  | some u =>
    obtain ⟨np, pr, h⟩ := ubusdev_bridge_remove_member_core_frame b u i
    dsimp only
    rw [h]
    exact ⟨_, _, _, rfl⟩

/-- ubusdev_bridge_free_member only rewrites n_present and the present
flag of the bridge (the member itself is already detached). -/
theorem ubusdev_bridge_free_member_frame (b : ubusdev_bridge)
    (u : ubusdev_bridge_member) (i : Nat) :
    ∃ np pr, (ubusdev_bridge_free_member b u i).1 =
      { b with n_present := np, present := pr } := by
  unfold ubusdev_bridge_free_member
  obtain ⟨np, pr, h⟩ := ubusdev_bridge_remove_member_core_frame b u i
  dsimp only
  rw [h]
  exact ⟨_, _, rfl⟩

/-- vlist_delete on the members vlist only rewrites the members list,
n_present and the present flag of the bridge. -/
theorem vlist_delete_member_frame (b : ubusdev_bridge) (m : String)
    (i : Nat) :
    ∃ ms np pr, (vlist_delete_member b m i).1 =
      { b with members := ms, n_present := np, present := pr } := by
  unfold vlist_delete_member
  cases findMember b.members m with
  | none => exact ⟨_, _, _, rfl⟩
  | some u =>
    obtain ⟨np, pr, h⟩ := ubusdev_bridge_free_member_frame
      { b with members := b.members.filter (fun mm => mm.name ≠ m) } u i
    dsimp only
    rw [h]
    exact ⟨_, _, _, rfl⟩

/-- vlist_flush on the members vlist only rewrites the members list,
n_present and the present flag of the bridge. -/
theorem vlist_flush_members_frame (b : ubusdev_bridge) (i : Nat) :
    ∃ ms np pr, (vlist_flush_members b i).1 =
      { b with members := ms, n_present := np, present := pr } := by
  unfold vlist_flush_members
  apply foldl_preserve
    (fun acc : ubusdev_bridge × Effects =>
      ∃ ms np pr, acc.1 =
        { b with members := ms, n_present := np, present := pr })
  · intro acc u hacc
    obtain ⟨ms, np, pr, h1⟩ := hacc
    obtain ⟨np2, pr2, h2⟩ := ubusdev_bridge_free_member_frame acc.1 u i
    dsimp only
    rw [h2, h1]
    exact ⟨_, _, _, rfl⟩
  · exact ⟨_, _, _, rfl⟩

/-- vlist_flush_all on the members vlist only rewrites the members list,
n_present and the present flag of the bridge. -/
theorem vlist_flush_all_members_frame (b : ubusdev_bridge) (i : Nat) :
    ∃ ms np pr, (vlist_flush_all_members b i).1 =
      { b with members := ms, n_present := np, present := pr } := by
  unfold vlist_flush_all_members
  apply foldl_preserve
    (fun acc : ubusdev_bridge × Effects =>
      ∃ ms np pr, acc.1 =
        { b with members := ms, n_present := np, present := pr })
  · intro acc u hacc
    obtain ⟨ms, np, pr, h1⟩ := hacc
    obtain ⟨np2, pr2, h2⟩ := ubusdev_bridge_free_member_frame acc.1 u i
    dsimp only
    rw [h2, h1]
    exact ⟨_, _, _, rfl⟩
  · exact ⟨_, _, _, rfl⟩

/-- ubusdev_bridge_create_member only rewrites the members vlist of the
bridge. -/
theorem ubusdev_bridge_create_member_frame (b : ubusdev_bridge)
    (n : String) (dp : Bool) (hp : Bool) :
    ∃ ms, (ubusdev_bridge_create_member b n dp hp).1 =
      { b with members := ms } := by
  unfold ubusdev_bridge_create_member
  cases findMember b.members n with
  | none => exact ⟨_, rfl⟩
  | some u => exact ⟨_, rfl⟩

/-- ubusdev_bridge_set_down preserves the active flag and the retry
counter, and either keeps the sync state or moves it to
STATE_PENDING_DISABLE. -/
theorem ubusdev_bridge_set_down_fields (b : ubusdev_bridge) (c : Int)
    (i : Nat) :
    (ubusdev_bridge_set_down b c i).1.active = b.active ∧
    ((ubusdev_bridge_set_down b c i).1.sync = b.sync ∨
      (ubusdev_bridge_set_down b c i).1.sync = STATE_PENDING_DISABLE) ∧
    (ubusdev_bridge_set_down b c i).1.retry_cnt = b.retry_cnt := by
  unfold ubusdev_bridge_set_down
  have hfold :
      ∀ (l : List String) (acc : ubusdev_bridge × Effects),
        (acc.1.active = b.active ∧ acc.1.sync = b.sync ∧
          acc.1.retry_cnt = b.retry_cnt) →
        ((l.foldl (fun acc n =>
            let s := ubusdev_bridge_disable_member acc.1 n i
            (s.1, Effects.merge acc.2 s.2)) acc).1.active = b.active ∧
          (l.foldl (fun acc n =>
            let s := ubusdev_bridge_disable_member acc.1 n i
            (s.1, Effects.merge acc.2 s.2)) acc).1.sync = b.sync ∧
          (l.foldl (fun acc n =>
            let s := ubusdev_bridge_disable_member acc.1 n i
            (s.1, Effects.merge acc.2 s.2)) acc).1.retry_cnt =
            b.retry_cnt) := by
    intro l
    apply foldl_preserve
      (fun acc : ubusdev_bridge × Effects =>
        acc.1.active = b.active ∧ acc.1.sync = b.sync ∧
          acc.1.retry_cnt = b.retry_cnt)
    intro acc n hacc
    obtain ⟨ms, h⟩ := ubusdev_bridge_disable_member_frame acc.1 n i
    dsimp only
    rw [h]
    exact hacc
  dsimp only
  have h1 := hfold
    (({ b with sys_up := false } : ubusdev_bridge).members.map
      (fun m => m.name))
    ({ b with sys_up := false }, eff0) ⟨rfl, rfl, rfl⟩
  obtain ⟨ha, hs, hc⟩ := h1
  obtain ⟨hs2, ha2, hc2⟩ := ubusdev_bridge_disable_interface_fields _ c i
  refine ⟨by rw [ha2, ha], ?_, by rw [hc2, hc]⟩
  cases hs2 with
  | inl h2 => exact Or.inl (by rw [h2, hs])
  | inr h2 => exact Or.inr h2

/-- ubusdev_bridge_set_up preserves the active flag. -/
theorem ubusdev_bridge_set_up_active (b : ubusdev_bridge) (c : Int)
    (i : Nat) :
    (ubusdev_bridge_set_up b c i).1.active = b.active := by
  unfold ubusdev_bridge_set_up
  dsimp only
  split
  · rfl
  · have hfold :
        ∀ (l : List String) (acc : ubusdev_bridge × Effects),
          acc.1.active = b.active →
          (l.foldl (fun acc n =>
            let s := ubusdev_bridge_enable_member acc.1 n c i
            (s.1, Effects.merge acc.2 s.2)) acc).1.active = b.active := by
      intro l
      apply foldl_preserve
        (fun acc : ubusdev_bridge × Effects => acc.1.active = b.active)
      intro acc n hacc
      obtain ⟨ms, np, nf, h⟩ :=
        ubusdev_bridge_enable_member_frame acc.1 n c i
      dsimp only
      rw [h]
      exact hacc
    have h1 := hfold
      (({ b with n_failed := 0 } : ubusdev_bridge).members.map
        (fun m => m.name))
      ({ b with n_failed := 0 }, eff0) rfl
    split
    · obtain ⟨_hs, ha2, _hc⟩ :=
        ubusdev_bridge_disable_interface_fields _ c i
      rw [ha2]
      exact h1
    · exact h1

/-- ubusdev_bridge_member_cb preserves the active flag. -/
theorem ubusdev_bridge_member_cb_active (b : ubusdev_bridge)
    (m : String) (ev : device_event) (uh : Bool) (c : Int) (i : Nat) :
    (ubusdev_bridge_member_cb b m ev uh c i).1.active = b.active := by
  unfold ubusdev_bridge_member_cb
  cases findMember b.members m with
  | none => rfl
  | some u =>
    dsimp only
    cases ev with
    | DEV_EVENT_ADD =>
      dsimp only
      split
      · obtain ⟨_h1, _h2, _h3, h4⟩ := Br_set_timeout_fields
          { b with
            n_present := b.n_present + 1
            members := updMember b.members m
              (fun mm => { mm with present := true }) }
          STATE_PENDING_CREATE c i
        exact h4
      · obtain ⟨ms, np, nf, h⟩ := ubusdev_bridge_enable_member_frame
          { b with
            n_present := b.n_present + 1
            members := updMember b.members m
              (fun mm => { mm with present := true }) } m c i
        rw [h]
    | DEV_EVENT_REMOVE =>
      dsimp only
      split
      · obtain ⟨ms, np, pr, h⟩ := vlist_delete_member_frame b m i
        rw [h]
      · split
        · obtain ⟨ms, np, pr, h⟩ :=
            ubusdev_bridge_remove_member_frame b m i
          rw [h]
        · rfl
    | DEV_EVENT_OTHER => rfl

/-- ubusdev_bridge_reload preserves the active flag. -/
theorem ubusdev_bridge_reload_active (b : ubusdev_bridge) (ce : Bool)
    (ifn : Option (List String)) (d : Bool) (c : Int) (i : Nat) :
    (ubusdev_bridge_reload b ce ifn d c i).1.active = b.active := by
  unfold ubusdev_bridge_reload
  dsimp only
  split
  · split
    · split
      · rfl
      · obtain ⟨_h1, _h2, _h3, h4⟩ := Br_set_timeout_fields
          { b with empty := true } STATE_PENDING_RELOAD c i
        exact h4
    · rfl
  · split
    · split
      · rfl
      · obtain ⟨_h1, _h2, _h3, h4⟩ := Br_set_timeout_fields
          { b with ifnames := ifn } STATE_PENDING_RELOAD c i
        exact h4
    · rfl

/-- The body of _ubusdev_bridge_config_init preserves the active
flag. -/
theorem _ubusdev_bridge_config_init_core_active (b : ubusdev_bridge)
    (dp : String → Bool) (c : Int) (i : Nat) :
    (_ubusdev_bridge_config_init_core b dp c i).1.active = b.active := by
  have hadd :
      ∀ (l : List String) (a : ubusdev_bridge),
        a.active = b.active →
        (l.foldl (fun x n => ubusdev_bridge_add_member x n (dp n))
          a).active = b.active := by
    intro l
    apply foldl_preserve (fun a : ubusdev_bridge => a.active = b.active)
    intro a n ha
    unfold ubusdev_bridge_add_member
    obtain ⟨ms, h⟩ := ubusdev_bridge_create_member_frame a n (dp n) false
    rw [h]
    exact ha
  unfold _ubusdev_bridge_config_init_core
  dsimp only
  split
  · obtain ⟨ms, np, pr, h⟩ := vlist_flush_members_frame _ i
    rw [h]
    exact hadd _ _ rfl
  · split
    · split
      · rfl
      · obtain ⟨ms, np, pr, h⟩ := vlist_flush_members_frame _ i
        rw [h]
        obtain ⟨_h1, _h2, _h3, h4⟩ := Br_set_timeout_fields
          (vlist_update_members { b with n_failed := 0 })
          STATE_PENDING_CREATE c i
        exact h4
    · obtain ⟨ms, np, pr, h⟩ := vlist_flush_members_frame _ i
      rw [h]
      rfl

/-- Function _ubusdev_bridge_config_init preserves the active flag. -/
theorem _ubusdev_bridge_config_init_active (b : ubusdev_bridge)
    (dp : String → Bool) (c : Int) (i : Nat) :
    (_ubusdev_bridge_config_init b dp c i).1.active = b.active := by
  unfold _ubusdev_bridge_config_init
  dsimp only
  split
  · rw [_ubusdev_bridge_config_init_core_active]
  · rw [_ubusdev_bridge_config_init_core_active]

/-- ubusdev_bridge_timeout_cb preserves the active flag. -/
theorem ubusdev_bridge_timeout_cb_active (b : ubusdev_bridge)
    (i : Nat) :
    (ubusdev_bridge_timeout_cb b i).1.active = b.active := by
  unfold ubusdev_bridge_timeout_cb
  dsimp only
  split
  · rfl
  · split
    · rfl
    · split <;> rfl

/-- ubusdev_bridge_member_timeout_cb preserves the active flag. -/
theorem ubusdev_bridge_member_timeout_cb_active (b : ubusdev_bridge)
    (m : String) (c : Int) (i : Nat) :
    (ubusdev_bridge_member_timeout_cb b m c i).1.active = b.active := by
  unfold ubusdev_bridge_member_timeout_cb
  cases findMember b.members m with
  | none => rfl
  | some u =>
    dsimp only
    split
    · rfl
    · split
      · obtain ⟨ms, np, nf, h⟩ :=
          ubusdev_bridge_retry_enable_members_frame
            { b with
              members := updMember b.members m
                (fun mm => { mm with
                  retry_armed := false
                  retry_cnt := mm.retry_cnt + 1 }) } c i
        rw [h]
      · split <;> rfl
      · rfl

/-- The bridge instantiation of ubusdev_free preserves the active
flag. -/
theorem Br_ubusdev_free_active (s : Bool) (b : ubusdev_bridge) (c : Int)
    (i : Nat) : (Br.ubusdev_free s b c i).1.active = b.active := by
  unfold Br.ubusdev_free ubusdev_check_subscribed
  dsimp only
  split
  · rfl
  · split
    · rfl
    · obtain ⟨_h1, _h2, _h3, h4⟩ := Br_set_timeout_fields b
        STATE_PENDING_FREE c i
      exact h4

/-- ubusdev_hotplug_add preserves the active flag. -/
theorem ubusdev_hotplug_add_active (cap s : Bool) (b : ubusdev_bridge)
    (m : String) (dp : Bool) :
    (ubusdev_hotplug_add cap s b m dp).1.active = b.active := by
  unfold ubusdev_hotplug_add ubusdev_check_subscribed
  dsimp only
  split
  · rfl
  · split
    · rfl
    · obtain ⟨ms, h⟩ := ubusdev_bridge_create_member_frame b m dp true
      split <;> rw [h]

/-- ubusdev_hotplug_remove preserves the active flag. -/
theorem ubusdev_hotplug_remove_active (cap s : Bool)
    (b : ubusdev_bridge) (m : String) (i : Nat) :
    (ubusdev_hotplug_remove cap s b m i).1.active = b.active := by
  unfold ubusdev_hotplug_remove ubusdev_check_subscribed
  dsimp only
  split
  · rfl
  · split
    · rfl
    · split
      · rfl
      · obtain ⟨ms, np, pr, h⟩ := vlist_delete_member_frame b m i
        rw [h]

/-- ubusdev_hotplug_prepare preserves the active flag. -/
theorem ubusdev_hotplug_prepare_active (cap s : Bool)
    (b : ubusdev_bridge) (c : Int) (i : Nat) :
    (ubusdev_hotplug_prepare cap s b c i).1.active = b.active := by
  unfold ubusdev_hotplug_prepare
  dsimp only
  split
  · rfl
  · split
    · rfl
    · obtain ⟨_h1, _h2, _h3, h4⟩ := Br_set_timeout_fields b
        STATE_PENDING_PREPARE c i
      exact h4

/-- The reload notification preserves the active flag of a bridge. -/
theorem Br_reload_notif_active (b b2 : ubusdev_bridge) (c : Int)
    (i : Nat)
    (h : (Br.ubusdev_handle_reload_notification (some b) c i).1 =
      some b2) : b2.active = b.active := by
  unfold Br.ubusdev_handle_reload_notification at h
  dsimp only at h
  split at h
  · obtain ⟨h1, h2, h3, h4⟩ := Br_set_sync_fields b STATE_SYNCHRONIZED
      c i
    injection h with h
    rw [← h]
    exact h4
  · injection h with h
    rw [← h]

/-- The prepare notification preserves the active flag of a bridge. -/
theorem Br_prepare_notif_active (b b2 : ubusdev_bridge) (c : Int)
    (i : Nat)
    (h : (ubusdev_handle_hotplug_prepare_notification (some b) c i).1 =
      some b2) : b2.active = b.active := by
  unfold ubusdev_handle_hotplug_prepare_notification at h
  dsimp only at h
  split at h
  · injection h with h
    rw [← h]
  · obtain ⟨h1, h2, h3, h4⟩ := Br_set_sync_fields b STATE_SYNCHRONIZED
      c i
    injection h with h
    rw [← h]
    exact h4

/-- The hotplug add notification preserves the active flag of a
bridge. -/
theorem Br_add_notif_active (b b2 : ubusdev_bridge) (m : String)
    (md : Option Bool)
    (h : (ubusdev_handle_hotplug_add_notification (some b) m md).1 =
      some b2) : b2.active = b.active := by
  unfold ubusdev_handle_hotplug_add_notification at h
  dsimp only at h
  cases md with
  | none =>
    dsimp only at h
    injection h with h
    rw [← h]
  | some dp =>
    dsimp only at h
    cases hf : findMember b.members m with
    | none =>
      rw [hf] at h
      dsimp only at h
      obtain ⟨ms, hc⟩ := ubusdev_bridge_create_member_frame b m dp true
      injection h with h
      rw [← h, hc]
    | some u =>
      rw [hf] at h
      dsimp only at h
      split at h
      · injection h with h
        rw [← h]
      · injection h with h
        rw [← h]

/-- The hotplug remove notification preserves the active flag of a
bridge. -/
theorem Br_remove_notif_active (b b2 : ubusdev_bridge) (m : String)
    (h : (ubusdev_handle_hotplug_remove_notification (some b) m).1 =
      some b2) : b2.active = b.active := by
  unfold ubusdev_handle_hotplug_remove_notification at h
  dsimp only at h
  cases hf : findMember b.members m with
  | none =>
    rw [hf] at h
    dsimp only at h
    injection h with h
    rw [← h]
  | some u =>
    rw [hf] at h
    dsimp only at h
    split at h
    · injection h with h
      rw [← h]
    · injection h with h
      rw [← h]

/-- The create notification on a bridge that is not in
STATE_PENDING_CREATE returns the state unchanged. -/
theorem Br_create_notif_skip (b : ubusdev_bridge) (ss c : Int) (i : Nat)
    (hb : b.sync ≠ STATE_PENDING_CREATE) :
    Br.ubusdev_handle_create_notification (some b) ss c i =
      (some b, 0, eff0) := by
  unfold Br.ubusdev_handle_create_notification
    _ubusdev_bridge_handle_create_notification
  dsimp only
  rw [if_pos hb]

/-- The create notification on a bridge in STATE_PENDING_CREATE leaves
the bridge with the active flag set and a sync state that is no longer
STATE_PENDING_CREATE (STATE_SYNCHRONIZED, or STATE_PENDING_DISABLE when
the preserved set_state callback failed and the bridge was set down
again). -/
theorem Br_create_notif_run (b b2 : ubusdev_bridge) (ss c : Int)
    (i : Nat) (hb : b.sync = STATE_PENDING_CREATE)
    (h : (Br.ubusdev_handle_create_notification (some b) ss c i).1 =
      some b2) :
    b2.active = true ∧ b2.sync ≠ STATE_PENDING_CREATE := by
  unfold Br.ubusdev_handle_create_notification
    _ubusdev_bridge_handle_create_notification at h
  dsimp only at h
  rw [if_neg (by simp [hb])] at h
  dsimp only at h
  injection h with h
  obtain ⟨h1, h2, h3, h4⟩ := Br_set_sync_fields
    { b with active := true } STATE_SYNCHRONIZED c i
  split at h
  · obtain ⟨ha, hs, hc⟩ := ubusdev_bridge_set_down_fields
      { (Br.ubusdev_set_sync { b with active := true }
          STATE_SYNCHRONIZED c i).1 with
        sys_up := decide (0 ≤ ss) } c i
    constructor
    · rw [← h]
      show (ubusdev_bridge_set_down _ c i).1.active = true
      rw [ha]
      show (Br.ubusdev_set_sync { b with active := true }
        STATE_SYNCHRONIZED c i).1.active = true
      rw [h4]
    · rw [← h]
      show (ubusdev_bridge_set_down _ c i).1.sync ≠ STATE_PENDING_CREATE
      cases hs with
      | inl h5 =>
        rw [h5]
        show (Br.ubusdev_set_sync { b with active := true }
          STATE_SYNCHRONIZED c i).1.sync ≠ STATE_PENDING_CREATE
        rw [h1]
        intro hx
        exact state_sync.noConfusion hx
      | inr h5 =>
        rw [h5]
        intro hx
        exact state_sync.noConfusion hx
  · constructor
    · rw [← h]
      show (Br.ubusdev_set_sync { b with active := true }
        STATE_SYNCHRONIZED c i).1.active = true
      rw [h4]
    · rw [← h]
      show (Br.ubusdev_set_sync { b with active := true }
        STATE_SYNCHRONIZED c i).1.sync ≠ STATE_PENDING_CREATE
      rw [h1]
      intro hx
      exact state_sync.noConfusion hx

/-- The free notification on a bridge in STATE_PENDING_DISABLE keeps
the entry and clears the active flag. -/
theorem Br_free_notif_disable (b b2 : ubusdev_bridge) (c : Int)
    (i : Nat) (hb : b.sync = STATE_PENDING_DISABLE)
    (h : (Br.ubusdev_handle_free_notification (some b) c i).1 =
      some b2) : b2.active = false := by
  unfold Br.ubusdev_handle_free_notification at h
  dsimp only at h
  rw [if_pos hb] at h
  dsimp only at h
  obtain ⟨h1, h2, h3, h4⟩ := Br_set_sync_fields
    { b with active := false } STATE_SYNCHRONIZED c i
  injection h with h
  rw [← h]
  exact h4

/-- The free notification on a bridge not in STATE_PENDING_DISABLE
destroys the entry. -/
theorem Br_free_notif_destroy (b : ubusdev_bridge) (c : Int) (i : Nat)
    (hb : b.sync ≠ STATE_PENDING_DISABLE) :
    (Br.ubusdev_handle_free_notification (some b) c i).1 = none := by
  unfold Br.ubusdev_handle_free_notification
  dsimp only
  rw [if_neg (by simp [hb])]

/-- ubusdev_config_init for a bridge-capable type preserves the active
flag. -/
theorem Br_ubusdev_config_init_active (s : Bool) (b : ubusdev_bridge)
    (dp : String → Bool) (c : Int) (i : Nat) :
    (Br.ubusdev_config_init s b dp c i).1.active = b.active := by
  unfold Br.ubusdev_config_init ubusdev_check_subscribed
  dsimp only
  split
  · rfl
  · exact _ubusdev_bridge_config_init_active b dp c i

/-- Two Bool-valued flags that are equal cannot have flipped in either
direction. -/
theorem no_flip {P Q : Prop} {x y : Bool} (hxy : y = x) :
    (x = false → y = true → P) ∧ (x = true → y = false → Q) := by
  constructor
  · intro h1 h2
    rw [h1, h2] at hxy
    exact absurd hxy (by simp)
  · intro h1 h2
    rw [h1, h2] at hxy
    exact absurd hxy (by simp)

/-- Demonstration state: the bridge wrapper for br0 right after
_ubusdev_bridge_create with an empty-bridge config. -/
def br_demo0 : ubusdev_bridge := _ubusdev_bridge_create "br0" true none

/-- Demonstration state: br0 after ubusdev_config_init on a subscribed
binding (the empty bridge invokes create and waits in
STATE_PENDING_CREATE). -/
def br_demo1 : ubusdev_bridge :=
  (Br.ubusdev_config_init true br_demo0 (fun _ => false) 0 0).1

/-- Demonstration state: br0 after the matching create notification
(synchronized, active, present). -/
def br_demo2 : ubusdev_bridge :=
  ((Br.ubusdev_handle_create_notification (some br_demo1) 0 0 0).1).getD
    br_demo1

/-- Demonstration state: the active br0 after ubusdev_bridge_set_down
(the disable path: free invoked, STATE_PENDING_DISABLE). -/
def br_demo3 : ubusdev_bridge := (ubusdev_bridge_set_down br_demo2 0 0).1

/-- C7 counterexample: the claim that a bridge is never active while its
sync state is PendingCreate, PendingDisable or PendingFree is false on
the code.  The state br_demo3 is reachable by controller operations
(create the empty bridge br0, run config_init, confirm the create
notification, then set the bridge down), and in it the bridge is active
while sync is STATE_PENDING_DISABLE: the disable path does not clear the
active flag; only the later free notification does. -/
theorem C7_counterexample :
    br_apply (br_op.op_set_down 0 0)
        (br_apply (br_op.op_create_notif 0 0 0)
          (br_apply (br_op.op_config_init true (fun _ => false) 0 0)
            (some br_demo0))) = some br_demo3 ∧
    ¬ (br_demo3.active = true →
        br_demo3.sync ≠ STATE_PENDING_CREATE ∧
        br_demo3.sync ≠ STATE_PENDING_DISABLE ∧
        br_demo3.sync ≠ STATE_PENDING_FREE) := by
  constructor
  · rfl
  · decide

/-- C7 (amended): across every modelled controller operation and
notification on a bridge, the active flag becomes true only when the
create notification confirms a bridge in STATE_PENDING_CREATE, and
becomes false only when the free notification confirms a bridge in
STATE_PENDING_DISABLE; in particular the flag may stay true while sync
is STATE_PENDING_DISABLE or STATE_PENDING_FREE (so the claimed
invariant does not hold, see the counterexample). -/
theorem C7_theorem (op : br_op) (b b2 : ubusdev_bridge)
    (h : br_apply op (some b) = some b2) :
    (b.active = false → b2.active = true →
      op.is_create_notif ∧ b.sync = STATE_PENDING_CREATE) ∧
    (b.active = true → b2.active = false →
      op.is_free_notif ∧ b.sync = STATE_PENDING_DISABLE) := by
  cases op <;> dsimp only [br_apply] at h
  case op_set_up c i =>
    injection h with h
    have ha : b2.active = b.active := by
      rw [← h]
      exact ubusdev_bridge_set_up_active b c i
    exact no_flip ha
  case op_set_down c i =>
    injection h with h
    have ha : b2.active = b.active := by
      rw [← h]
      exact (ubusdev_bridge_set_down_fields b c i).1
    exact no_flip ha
  case op_reload ce ifn d c i =>
    injection h with h
    have ha : b2.active = b.active := by
      rw [← h]
      exact ubusdev_bridge_reload_active b ce ifn d c i
    exact no_flip ha
  case op_config_init s dp c i =>
    injection h with h
    have ha : b2.active = b.active := by
      rw [← h]
      exact Br_ubusdev_config_init_active s b dp c i
    exact no_flip ha
  case op_free s c i =>
    injection h with h
    have ha : b2.active = b.active := by
      rw [← h]
      exact Br_ubusdev_free_active s b c i
    exact no_flip ha
  case op_hotplug_add cap s m dp =>
    injection h with h
    have ha : b2.active = b.active := by
      rw [← h]
      exact ubusdev_hotplug_add_active cap s b m dp
    exact no_flip ha
  case op_hotplug_remove cap s m i =>
    injection h with h
    have ha : b2.active = b.active := by
      rw [← h]
      exact ubusdev_hotplug_remove_active cap s b m i
    exact no_flip ha
  case op_hotplug_prep cap s c i =>
    injection h with h
    have ha : b2.active = b.active := by
      rw [← h]
      exact ubusdev_hotplug_prepare_active cap s b c i
    exact no_flip ha
  case op_member_cb m ev uh c i =>
    injection h with h
    have ha : b2.active = b.active := by
      rw [← h]
      exact ubusdev_bridge_member_cb_active b m ev uh c i
    exact no_flip ha
  case op_timeout i =>
    injection h with h
    have ha : b2.active = b.active := by
      rw [← h]
      exact ubusdev_bridge_timeout_cb_active b i
    exact no_flip ha
  case op_member_timeout m c i =>
    injection h with h
    have ha : b2.active = b.active := by
      rw [← h]
      exact ubusdev_bridge_member_timeout_cb_active b m c i
    exact no_flip ha
  case op_reload_notif c i =>
    exact no_flip (Br_reload_notif_active b b2 c i h)
  case op_prepare_notif c i =>
    exact no_flip (Br_prepare_notif_active b b2 c i h)
  case op_add_notif m md =>
    exact no_flip (Br_add_notif_active b b2 m md h)
  case op_remove_notif m =>
    exact no_flip (Br_remove_notif_active b b2 m h)
  case op_create_notif ss c i =>
    by_cases hb : b.sync = STATE_PENDING_CREATE
    · obtain ⟨hact, _hsync⟩ := Br_create_notif_run b b2 ss c i hb h
      constructor
      · intro _h1 _h2
        exact ⟨True.intro, hb⟩
      · intro _h1 h2
        rw [hact] at h2
        exact absurd h2 (by simp)
    · have hskip := Br_create_notif_skip b ss c i hb
      rw [hskip] at h
      injection h with h
      exact no_flip (by rw [← h])
  case op_free_notif c i =>
    by_cases hb : b.sync = STATE_PENDING_DISABLE
    · have hact := Br_free_notif_disable b b2 c i hb h
      constructor
      · intro _h1 h2
        rw [hact] at h2
        exact absurd h2 (by simp)
      · intro _h1 _h2
        exact ⟨True.intro, hb⟩
    · have hdes := Br_free_notif_destroy b c i hb
      rw [hdes] at h
      exact absurd h (by simp)

/-- Round trip of a plain device dev0 on a subscribed binding, step 0:
ubusdev_create (the registry entry for dev0). -/
def c1_state0 : Option ubusdev_device := (ubusdev_create true "dev0" 0).1

/-- Round trip step 1: the matching create notification. -/
def c1_state1 : Option ubusdev_device :=
  (ubusdev_handle_create_notification c1_state0).1

/-- Round trip step 2: ubusdev_reload with a non-empty config diff. -/
def c1_state2 : Option ubusdev_device :=
  match c1_state1 with
  | none => none
  | some d => some (ubusdev_reload true d true 0).1

/-- Round trip step 3: the matching reload notification. -/
def c1_state3 : Option ubusdev_device :=
  (ubusdev_handle_reload_notification c1_state2).1

/-- Round trip step 4: ubusdev_free. -/
def c1_state4 : Option ubusdev_device :=
  match c1_state3 with
  | none => none
  | some d => some (ubusdev_free true d 0).1

/-- Round trip step 5: the matching free notification. -/
def c1_state5 : Option ubusdev_device :=
  (ubusdev_handle_free_notification c1_state4).1

/-- C1: the claim (and the spec) say that after the round trip
create, create notification, reload, reload notification, free, free
notification, the controller holds no entry for the non-bridge device:
the free-notification handler is supposed to remove the ManagedDevice
wrapper.  The code does not do this: ubusdev_handle_free_notification
only acts on devices whose type has bridge_capability and returns 0 for
a plain device without touching it, so the wrapper survives in
STATE_PENDING_FREE with its retry timer armed, and the free path never
completes locally — contradicting the stated lifecycle (and the comment
on ubusdev_free, which promises to free the device locally within
netifd as well). -/
theorem C1_theorem :
    c1_state5 =
      some { ifname := "dev0"
             sync := STATE_PENDING_FREE
             retry_cnt := 0
             retry_armed := true
             present := true
             config_pending := false } ∧
    c1_state5 ≠ none := by
  constructor
  · rfl
  · decide

/-- C10: for a subscribed binding, ubusdev_free on a plain device whose
free invocation is accepted (status 0) still runs the invocation-error
critical log (the success path falls through into the error label), and
the device nevertheless enters STATE_PENDING_FREE with the retry timer
armed. -/
theorem C10_theorem (d : ubusdev_device) :
    (ubusdev_free true d 0).1.sync = STATE_PENDING_FREE ∧
    (ubusdev_free true d 0).1.retry_armed = true ∧
    (ubusdev_free true d 0).2.crit = 1 ∧
    (ubusdev_free true d 0).2.invoked = ["free"] :=
  ⟨rfl, rfl, rfl, rfl⟩

/-- One retry-timer tick of a plain device whose re-invocation is
accepted by the transport. -/
def c5_tick (d : ubusdev_device) : ubusdev_device :=
  (ubusdev_timeout_cb d 0).1

/-- The plain device dev0 right after ubusdev_create on a subscribed
binding (STATE_PENDING_CREATE, timer armed, zero retries). -/
def c5_dev : ubusdev_device :=
  ((ubusdev_create true "dev0" 0).1).getD (ubusdev_device_init "dev0")

/-- dev0 after three silent retry ticks: retry_cnt = 3. -/
def c5_dev3 : ubusdev_device := c5_tick (c5_tick (c5_tick c5_dev))

/-- dev0 after the fourth tick, the one that gives up. -/
def c5_dev4 : ubusdev_device := c5_tick c5_dev3

/-- C5 counterexample: the claim that the retry counter never exceeds
UBUSDEV_MAX_RETRY_CNT = 3 is false on the code: the giving-up tick
post-increments the counter, so after four ticks of a device created in
STATE_PENDING_CREATE the stored retry_cnt is 4. -/
theorem C5_counterexample :
    ¬ (c5_dev4.retry_cnt ≤ UBUSDEV_MAX_RETRY_CNT) ∧
    (ubusdev_timeout_cb c5_dev3 0).2.crit = 1 := by
  constructor
  · decide
  · decide

/-- C5 (amended): the tick that finds the retry counter equal to
UBUSDEV_MAX_RETRY_CNT emits exactly one critical log, issues no
invocation, leaves the timer unarmed and leaves the counter at
UBUSDEV_MAX_RETRY_CNT + 1 = 4 (so the stored counter does exceed the
bound, and it is never reset afterwards); this holds for the device
callback, the bridge callback and the member callback (which
additionally releases the device user). -/
theorem C5_theorem :
    (∀ (d : ubusdev_device) (i : Nat),
      d.retry_cnt = UBUSDEV_MAX_RETRY_CNT →
      ubusdev_timeout_cb d i =
        ({ d with
           retry_armed := false
           retry_cnt := d.retry_cnt + 1 }, { crit := 1 })) ∧
    (∀ (b : ubusdev_bridge) (i : Nat),
      b.retry_cnt = UBUSDEV_MAX_RETRY_CNT →
      ubusdev_bridge_timeout_cb b i =
        ({ b with
           retry_armed := false
           retry_cnt := b.retry_cnt + 1 }, { crit := 1 })) ∧
    (∀ (b : ubusdev_bridge) (m : String) (u : ubusdev_bridge_member)
      (c : Int) (i : Nat),
      findMember b.members m = some u →
      u.retry_cnt = UBUSDEV_MAX_RETRY_CNT →
      ubusdev_bridge_member_timeout_cb b m c i =
        ({ b with
           members := updMember b.members m
             (fun mm => { mm with
               retry_armed := false
               retry_cnt := mm.retry_cnt + 1 }) },
         { crit := 1, released := 1 })) := by
  refine ⟨?_, ?_, ?_⟩
  · intro d i h
    unfold ubusdev_timeout_cb
    dsimp only
    rw [if_pos h]
  · intro b i h
    unfold ubusdev_bridge_timeout_cb
    dsimp only
    rw [if_pos h]
  · intro b m u c i hf h
    unfold ubusdev_bridge_member_timeout_cb
    rw [hf]
    dsimp only
    rw [if_pos h]

/-- A bridge member slot that has exhausted its retries
(retry_cnt = 3). -/
def c5_member : ubusdev_bridge_member :=
  { name := "wlan0"
    present := false
    hotplug := false
    sync := STATE_PENDING_ADD
    retry_armed := false
    retry_cnt := 3
    dev_present := true
    version := 1 }

/-- The demonstration bridge br0 holding that member slot, with its own
retry counter exhausted as well. -/
def c5_bridge : ubusdev_bridge :=
  { br_demo2 with retry_cnt := 3, members := [c5_member] }

/-- C5 witness: the amended statement evaluated on dev0 after three
ticks and on the exhausted demonstration bridge and member. -/
theorem C5_witness :
    ubusdev_timeout_cb c5_dev3 0 =
      ({ c5_dev3 with
         retry_armed := false
         retry_cnt := c5_dev3.retry_cnt + 1 }, { crit := 1 }) ∧
    ubusdev_bridge_timeout_cb c5_bridge 0 =
      ({ c5_bridge with
         retry_armed := false
         retry_cnt := c5_bridge.retry_cnt + 1 }, { crit := 1 }) ∧
    ubusdev_bridge_member_timeout_cb c5_bridge "wlan0" 0 0 =
      ({ c5_bridge with
         members := updMember c5_bridge.members "wlan0"
           (fun mm => { mm with
             retry_armed := false
             retry_cnt := mm.retry_cnt + 1 }) },
       { crit := 1, released := 1 }) :=
  ⟨C5_theorem.1 c5_dev3 0 (by decide),
   C5_theorem.2.1 c5_bridge 0 (by decide),
   C5_theorem.2.2 c5_bridge "wlan0" c5_member 0 0 (by decide) (by decide)⟩

/-- dev0 after one retry tick: STATE_PENDING_CREATE with
retry_cnt = 1. -/
def c6_dev : ubusdev_device := c5_tick c5_dev

/-- dev0 after that tick and the matching create notification. -/
def c6_final : Option ubusdev_device :=
  (ubusdev_handle_create_notification (some c6_dev)).1

/-- C6 counterexample: the claim that a Synchronized entity always has
retry counter 0 (a successful notification resetting it) is false on
the code: after one retry and the matching create notification the
device is Synchronized with its timer cancelled, but retry_cnt is still
1 — nothing in src/ubusdev.c ever resets retry_cnt. -/
theorem C6_counterexample :
    c6_final.map (fun d => d.sync) = some STATE_SYNCHRONIZED ∧
    c6_final.map (fun d => d.retry_armed) = some false ∧
    ¬ (c6_final.map (fun d => d.retry_cnt) = some 0) := by
  refine ⟨by decide, by decide, by decide⟩

/-- C6 (amended): entering STATE_SYNCHRONIZED through ubusdev_set_sync
(for plain devices and for bridges) or through
ubusdev_bridge_member_set_sync cancels the retry timer — so a
successful notification does cancel the timer — but the retry counter
is preserved, not reset. -/
theorem C6_theorem :
    (∀ d : ubusdev_device,
      (ubusdev_set_sync d STATE_SYNCHRONIZED).retry_armed = false ∧
      (ubusdev_set_sync d STATE_SYNCHRONIZED).retry_cnt = d.retry_cnt) ∧
    (∀ u : ubusdev_bridge_member,
      (ubusdev_bridge_member_set_sync u STATE_SYNCHRONIZED).retry_armed =
        false ∧
      (ubusdev_bridge_member_set_sync u STATE_SYNCHRONIZED).retry_cnt =
        u.retry_cnt) ∧
    (∀ (b : ubusdev_bridge) (c : Int) (i : Nat),
      (Br.ubusdev_set_sync b STATE_SYNCHRONIZED c i).1.retry_armed =
        false ∧
      (Br.ubusdev_set_sync b STATE_SYNCHRONIZED c i).1.retry_cnt =
        b.retry_cnt) := by
  refine ⟨fun d => ⟨rfl, rfl⟩, fun u => ⟨rfl, rfl⟩, fun b c i => ?_⟩
  obtain ⟨h1, h2, h3, h4⟩ := Br_set_sync_fields b STATE_SYNCHRONIZED c i
  exact ⟨by rw [h2]; rfl, h3⟩

/-- Looking up the updated key after a point update returns the updated
member, provided the update does not rename it. -/
theorem findMember_updMember (ms : List ubusdev_bridge_member)
    (n : String) (f : ubusdev_bridge_member → ubusdev_bridge_member)
    (hf : ∀ mm, (f mm).name = mm.name) :
    findMember (updMember ms n f) n = (findMember ms n).map f := by
  induction ms with
  | nil => rfl
  | cons x xs ih =>
    unfold findMember updMember at *
    by_cases hx : x.name = n
    · simp only [List.map_cons, if_pos hx]
      rw [List.find?_cons_of_pos _ (by simp [hf x, hx]),
          List.find?_cons_of_pos _ (by simp [hx])]
      rfl
    · simp only [List.map_cons, if_neg hx]
      rw [List.find?_cons_of_neg _ (by simp [hx]),
          List.find?_cons_of_neg _ (by simp [hx])]
      exact ih

/-- The plain-device create notification is idempotent on the registry
state. -/
theorem create_notif_idem_plain (st : Option ubusdev_device) :
    (ubusdev_handle_create_notification
      ((ubusdev_handle_create_notification st).1)).1 =
    (ubusdev_handle_create_notification st).1 := by
  cases st with
  | none => rfl
  | some d =>
    unfold ubusdev_handle_create_notification
      _ubusdev_handle_create_notification
    dsimp only
    split <;> rfl

/-- The plain-device reload notification is idempotent on the registry
state. -/
theorem reload_notif_idem_plain (st : Option ubusdev_device) :
    (ubusdev_handle_reload_notification
      ((ubusdev_handle_reload_notification st).1)).1 =
    (ubusdev_handle_reload_notification st).1 := by
  cases st with
  | none => rfl
  | some d =>
    by_cases hd : d.sync = STATE_PENDING_RELOAD
    · have h1 : (ubusdev_handle_reload_notification (some d)).1 =
          some { ubusdev_set_sync d STATE_SYNCHRONIZED with
                 present := true } := by
        unfold ubusdev_handle_reload_notification
        dsimp only
        rw [if_pos hd]
      have h2 : (ubusdev_handle_reload_notification
          (some { ubusdev_set_sync d STATE_SYNCHRONIZED with
                  present := true })).1 =
          some { ubusdev_set_sync d STATE_SYNCHRONIZED with
                 present := true } := by
        unfold ubusdev_handle_reload_notification
        dsimp only
        rw [if_neg (fun hq => state_sync.noConfusion hq)]
      rw [h1, h2]
    · have h1 : (ubusdev_handle_reload_notification (some d)).1 =
          some d := by
        unfold ubusdev_handle_reload_notification
        dsimp only
        rw [if_neg hd]
      rw [h1, h1]

/-- The bridge create notification is idempotent on the registry
state. -/
theorem create_notif_idem_bridge (st : Option ubusdev_bridge)
    (ss c : Int) (i : Nat) :
    (Br.ubusdev_handle_create_notification
      ((Br.ubusdev_handle_create_notification st ss c i).1) ss c i).1 =
    (Br.ubusdev_handle_create_notification st ss c i).1 := by
  cases st with
  | none => rfl
  | some b =>
    by_cases hb : b.sync = STATE_PENDING_CREATE
    · have h1 : (Br.ubusdev_handle_create_notification (some b)
          ss c i).1 =
          some (_ubusdev_bridge_handle_create_notification b ss c i).1 :=
        rfl
      obtain ⟨_hact, hsync⟩ :=
        Br_create_notif_run b
          (_ubusdev_bridge_handle_create_notification b ss c i).1 ss c i
          hb h1
      have h2 := Br_create_notif_skip
        (_ubusdev_bridge_handle_create_notification b ss c i).1 ss c i
        hsync
      rw [h1, h2]
    · have h1 := Br_create_notif_skip b ss c i hb
      have h2 : (Br.ubusdev_handle_create_notification (some b)
          ss c i).1 = some b := by rw [h1]
      rw [h2, h2]

/-- The bridge reload notification is idempotent on the registry
state. -/
theorem reload_notif_idem_bridge (st : Option ubusdev_bridge)
    (c : Int) (i : Nat) :
    (Br.ubusdev_handle_reload_notification
      ((Br.ubusdev_handle_reload_notification st c i).1) c i).1 =
    (Br.ubusdev_handle_reload_notification st c i).1 := by
  cases st with
  | none => rfl
  | some b =>
    by_cases hb : b.sync = STATE_PENDING_RELOAD
    · have h1 : (Br.ubusdev_handle_reload_notification (some b) c i).1 =
          some { (Br.ubusdev_set_sync b STATE_SYNCHRONIZED c i).1 with
                 present := true } := by
        unfold Br.ubusdev_handle_reload_notification
        dsimp only
        rw [if_pos hb]
      have hX : ({ (Br.ubusdev_set_sync b STATE_SYNCHRONIZED c i).1 with
          present := true } : ubusdev_bridge).sync =
          STATE_SYNCHRONIZED :=
        (Br_set_sync_fields b STATE_SYNCHRONIZED c i).1
      have h2 : (Br.ubusdev_handle_reload_notification
          (some { (Br.ubusdev_set_sync b STATE_SYNCHRONIZED c i).1 with
                  present := true }) c i).1 =
          some { (Br.ubusdev_set_sync b STATE_SYNCHRONIZED c i).1 with
                 present := true } := by
        unfold Br.ubusdev_handle_reload_notification
        dsimp only
        rw [if_neg (by rw [hX]; decide)]
      rw [h1, h2]
    · have h1 : (Br.ubusdev_handle_reload_notification (some b) c i).1 =
          some b := by
        unfold Br.ubusdev_handle_reload_notification
        dsimp only
        rw [if_neg hb]
      rw [h1, h1]

/-- The hotplug remove notification is idempotent on the registry
state. -/
theorem remove_notif_idem (st : Option ubusdev_bridge) (m : String) :
    (ubusdev_handle_hotplug_remove_notification
      ((ubusdev_handle_hotplug_remove_notification st m).1) m).1 =
    (ubusdev_handle_hotplug_remove_notification st m).1 := by
  cases st with
  | none => rfl
  | some b =>
    cases hf : findMember b.members m with
    | none =>
      have h1 : (ubusdev_handle_hotplug_remove_notification (some b)
          m).1 = some b := by
        unfold ubusdev_handle_hotplug_remove_notification
        dsimp only
        rw [hf]
      rw [h1, h1]
    | some u =>
      by_cases hu : u.sync = STATE_PENDING_REMOVE
      · have h1 : (ubusdev_handle_hotplug_remove_notification (some b)
            m).1 =
            some { b with
              members := updMember b.members m
                (fun mm => ubusdev_bridge_member_set_sync mm
                  STATE_SYNCHRONIZED) } := by
          unfold ubusdev_handle_hotplug_remove_notification
          dsimp only
          rw [hf]
          dsimp only
          rw [if_neg (by simp [hu])]
        have hfind : findMember
            (updMember b.members m
              (fun mm => ubusdev_bridge_member_set_sync mm
                STATE_SYNCHRONIZED)) m =
            some (ubusdev_bridge_member_set_sync u STATE_SYNCHRONIZED) :=
          by
          rw [findMember_updMember b.members m
            (fun mm => ubusdev_bridge_member_set_sync mm
              STATE_SYNCHRONIZED) (fun mm => rfl), hf]
          rfl
        have h2 : (ubusdev_handle_hotplug_remove_notification
            (some { b with
              members := updMember b.members m
                (fun mm => ubusdev_bridge_member_set_sync mm
                  STATE_SYNCHRONIZED) }) m).1 =
            some { b with
              members := updMember b.members m
                (fun mm => ubusdev_bridge_member_set_sync mm
                  STATE_SYNCHRONIZED) } := by
          unfold ubusdev_handle_hotplug_remove_notification
          dsimp only
          rw [hfind]
          dsimp only
          rw [if_pos (show (ubusdev_bridge_member_set_sync u
            STATE_SYNCHRONIZED).sync ≠ STATE_PENDING_REMOVE from
            fun hq => state_sync.noConfusion hq)]
        rw [h1, h2]
      · have h1 : (ubusdev_handle_hotplug_remove_notification (some b)
            m).1 = some b := by
          unfold ubusdev_handle_hotplug_remove_notification
          dsimp only
          rw [hf]
          dsimp only
          rw [if_pos hu]
        rw [h1, h1]

/-- The hotplug add notification is idempotent on the registry state
when the member slot already exists. -/
theorem add_notif_idem (b : ubusdev_bridge) (m : String)
    (md : Option Bool) (u : ubusdev_bridge_member)
    (hf : findMember b.members m = some u) :
    (ubusdev_handle_hotplug_add_notification
      ((ubusdev_handle_hotplug_add_notification (some b) m md).1)
      m md).1 =
    (ubusdev_handle_hotplug_add_notification (some b) m md).1 := by
  cases md with
  | none => rfl
  | some dp =>
    by_cases hu : u.sync = STATE_PENDING_ADD
    · have h1 : (ubusdev_handle_hotplug_add_notification (some b) m
          (some dp)).1 =
          some { b with
            members := updMember b.members m
              (fun mm => ubusdev_bridge_member_set_sync mm
                STATE_SYNCHRONIZED) } := by
        unfold ubusdev_handle_hotplug_add_notification
        dsimp only
        rw [hf]
        dsimp only
        rw [if_neg (by simp [hu])]
      have hfind : findMember
          (updMember b.members m
            (fun mm => ubusdev_bridge_member_set_sync mm
              STATE_SYNCHRONIZED)) m =
          some (ubusdev_bridge_member_set_sync u STATE_SYNCHRONIZED) :=
        by
        rw [findMember_updMember b.members m
          (fun mm => ubusdev_bridge_member_set_sync mm
            STATE_SYNCHRONIZED) (fun mm => rfl), hf]
        rfl
      have h2 : (ubusdev_handle_hotplug_add_notification
          (some { b with
            members := updMember b.members m
              (fun mm => ubusdev_bridge_member_set_sync mm
                STATE_SYNCHRONIZED) }) m (some dp)).1 =
          some { b with
            members := updMember b.members m
              (fun mm => ubusdev_bridge_member_set_sync mm
                STATE_SYNCHRONIZED) } := by
        unfold ubusdev_handle_hotplug_add_notification
        dsimp only
        rw [hfind]
        dsimp only
        rw [if_pos (show (ubusdev_bridge_member_set_sync u
          STATE_SYNCHRONIZED).sync ≠ STATE_PENDING_ADD from
          fun hq => state_sync.noConfusion hq)]
      rw [h1, h2]
    · have h1 : (ubusdev_handle_hotplug_add_notification (some b) m
          (some dp)).1 = some b := by
        unfold ubusdev_handle_hotplug_add_notification
        dsimp only
        rw [hf]
        dsimp only
        rw [if_pos hu]
      rw [h1, h1]

/-- C7 witness: the amended statement evaluated on the create
notification that takes the demonstration bridge br0 from
STATE_PENDING_CREATE (br_demo1) to the confirmed state (br_demo2). -/
theorem C7_witness :
    (br_op.op_create_notif 0 0 0).is_create_notif ∧
    br_demo1.sync = STATE_PENDING_CREATE :=
  (C7_theorem (br_op.op_create_notif 0 0 0) br_demo1 br_demo2
    (by decide)).1 (by decide) (by decide)

/-- The hotplug add notification delivered once to the synchronized,
memberless demonstration bridge br0: it creates the member slot wlan0
as a hotplug member. -/
def c2_once : Option ubusdev_bridge :=
  (ubusdev_handle_hotplug_add_notification (some br_demo2) "wlan0"
    (some true)).1

/-- The same notification delivered a second time. -/
def c2_twice : Option ubusdev_bridge :=
  (ubusdev_handle_hotplug_add_notification c2_once "wlan0"
    (some true)).1

/-- C2 counterexample: delivering the same hotplug add notification
twice does not yield the same controller state as delivering it once,
and the second delivery is not free of side effects.  The slot created
by the first delivery has sync STATE_PENDING_ADD (not Synchronized, as
the claim asserts), so the second delivery transitions it to
STATE_SYNCHRONIZED and broadcasts a topology change. -/
theorem C2_counterexample :
    c2_twice ≠ c2_once ∧
    c2_once.map (fun b =>
      (findMember b.members "wlan0").map
        (fun u => (u.sync, u.hotplug))) =
      some (some (STATE_PENDING_ADD, true)) ∧
    c2_twice.map (fun b =>
      (findMember b.members "wlan0").map (fun u => u.sync)) =
      some (some STATE_SYNCHRONIZED) ∧
    (ubusdev_handle_hotplug_add_notification c2_once "wlan0"
      (some true)).2.2.broadcasts = 1 := by
  refine ⟨by decide, by decide, by decide, by decide⟩

/-- C2 (amended): delivering the same notification twice yields the
same controller state as delivering it once for the create and reload
notifications (plain devices and bridges), for the hotplug remove
notification, and for the hotplug add notification when the member slot
already exists; the exception is a hotplug add notification whose first
delivery created the slot, which it leaves in STATE_PENDING_ADD — see
the counterexample. -/
theorem C2_theorem :
    (∀ st : Option ubusdev_device,
      (ubusdev_handle_create_notification
        ((ubusdev_handle_create_notification st).1)).1 =
      (ubusdev_handle_create_notification st).1) ∧
    (∀ st : Option ubusdev_device,
      (ubusdev_handle_reload_notification
        ((ubusdev_handle_reload_notification st).1)).1 =
      (ubusdev_handle_reload_notification st).1) ∧
    (∀ (st : Option ubusdev_bridge) (ss c : Int) (i : Nat),
      (Br.ubusdev_handle_create_notification
        ((Br.ubusdev_handle_create_notification st ss c i).1)
        ss c i).1 =
      (Br.ubusdev_handle_create_notification st ss c i).1) ∧
    (∀ (st : Option ubusdev_bridge) (c : Int) (i : Nat),
      (Br.ubusdev_handle_reload_notification
        ((Br.ubusdev_handle_reload_notification st c i).1) c i).1 =
      (Br.ubusdev_handle_reload_notification st c i).1) ∧
    (∀ (st : Option ubusdev_bridge) (m : String),
      (ubusdev_handle_hotplug_remove_notification
        ((ubusdev_handle_hotplug_remove_notification st m).1) m).1 =
      (ubusdev_handle_hotplug_remove_notification st m).1) ∧
    (∀ (b : ubusdev_bridge) (m : String) (md : Option Bool)
      (u : ubusdev_bridge_member),
      findMember b.members m = some u →
      (ubusdev_handle_hotplug_add_notification
        ((ubusdev_handle_hotplug_add_notification (some b) m md).1)
        m md).1 =
      (ubusdev_handle_hotplug_add_notification (some b) m md).1) :=
  ⟨create_notif_idem_plain, reload_notif_idem_plain,
   create_notif_idem_bridge, reload_notif_idem_bridge,
   remove_notif_idem, add_notif_idem⟩

/-- C2 witness: the add-notification idempotence instance on the
demonstration bridge that already holds the member slot wlan0. -/
theorem C2_witness :
    (ubusdev_handle_hotplug_add_notification
      ((ubusdev_handle_hotplug_add_notification (some c5_bridge)
        "wlan0" (some true)).1) "wlan0" (some true)).1 =
    (ubusdev_handle_hotplug_add_notification (some c5_bridge) "wlan0"
      (some true)).1 :=
  C2_theorem.2.2.2.2.2 c5_bridge "wlan0" (some true) c5_member
    (by decide)

/-- Appending a member with the sought name behind a vlist that does
not contain that name makes the lookup return the appended member. -/
theorem findMember_append_single (ms : List ubusdev_bridge_member)
    (n : String) (x : ubusdev_bridge_member)
    (h : findMember ms n = none) (hx : x.name = n) :
    findMember (ms ++ [x]) n = some x := by
  induction ms with
  | nil =>
    unfold findMember
    rw [List.nil_append, List.find?_cons_of_pos _ (by simp [hx])]
  | cons y ys ih =>
    unfold findMember at *
    have hy : ¬ (y.name = n) := by
      intro hq
      rw [List.find?_cons_of_pos _ (by simp [hq])] at h
      exact Option.noConfusion h
    rw [List.find?_cons_of_neg _ (by simp [hy])] at h
    rw [List.cons_append, List.find?_cons_of_neg _ (by simp [hy])]
    exact ih h

/-- C8 counterexample: the claim that a member created with
hotplug = true is Synchronized immediately after creation is false on
the code: ubusdev_bridge_create_member always initialises the slot with
STATE_PENDING_ADD, hotplug or not. -/
theorem C8_counterexample :
    ¬ (((ubusdev_bridge_create_member br_demo2 "wlan0" true
          true).2.1).map (fun u => u.sync) =
        some STATE_SYNCHRONIZED) ∧
    ((ubusdev_bridge_create_member br_demo2 "wlan0" true true).2.1).map
      (fun u => (u.sync, u.hotplug)) =
      some (STATE_PENDING_ADD, true) := by
  refine ⟨by decide, by decide⟩

/-- C8 (amended): every freshly created bridge member enters
STATE_PENDING_ADD, whether it was created through the hotplug path or
as a configured member. -/
theorem C8_theorem (b : ubusdev_bridge) (n : String) (dp hp : Bool)
    (hf : findMember b.members n = none) :
    ((ubusdev_bridge_create_member b n dp hp).2.1).map
      (fun u => (u.sync, u.hotplug)) =
      some (STATE_PENDING_ADD, hp) := by
  unfold ubusdev_bridge_create_member
  rw [hf]
  dsimp only
  rw [findMember_append_single b.members n _ hf rfl]
  rfl

/-- C8 witness: the amended statement on the hotplug creation of wlan0
in the demonstration bridge. -/
theorem C8_witness :
    ((ubusdev_bridge_create_member br_demo2 "wlan0" true
      true).2.1).map (fun u => (u.sync, u.hotplug)) =
      some (STATE_PENDING_ADD, true) :=
  C8_theorem br_demo2 "wlan0" true true (by decide)

/-- C3 counterexample: the claim that a hotplug-add request makes the
controller call device_lock and invoke the add method (with
device_unlock on the matching add notification) is false on the code:
on the concrete request hotplug_add(br0, wlan0) against the subscribed
demonstration bridge, no device_lock is issued, no method at all is
invoked, and the subsequent add notification performs no
device_unlock — src/ubusdev.c contains no device_lock or device_unlock
call. -/
theorem C3_counterexample :
    ¬ (1 ≤ (ubusdev_hotplug_add true true br_demo2 "wlan0"
          true).2.2.locks ∧
       "add" ∈ (ubusdev_hotplug_add true true br_demo2 "wlan0"
          true).2.2.invoked ∧
       1 ≤ (ubusdev_handle_hotplug_add_notification
          (some (ubusdev_hotplug_add true true br_demo2 "wlan0"
            true).1) "wlan0" (some true)).2.2.unlocks) := by
  decide

/-- C3 (amended): on a bridge-capable, subscribed type, the hotplug-add
request only creates a hotplug member slot: it performs no device_lock,
no device_unlock and no invocation of the external handler, and the add
notification handler performs no device_unlock either; when the member
was not yet present the created slot carries hotplug = true and the
request returns 0 (the handler-side add arrives later as a
notification). -/
theorem C3_theorem (b : ubusdev_bridge) (m : String) (dp : Bool) :
    (ubusdev_hotplug_add true true b m dp).2.2.locks = 0 ∧
    (ubusdev_hotplug_add true true b m dp).2.2.unlocks = 0 ∧
    (ubusdev_hotplug_add true true b m dp).2.2.invoked = [] ∧
    (∀ (st : Option ubusdev_bridge) (md : Option Bool),
      (ubusdev_handle_hotplug_add_notification st m md).2.2.unlocks =
        0) ∧
    (findMember b.members m = none →
      ((ubusdev_bridge_create_member b m dp true).2.1).map
        (fun u => u.hotplug) = some true ∧
      (ubusdev_hotplug_add true true b m dp).2.1 = 0) := by
  have heff : ∀ k : Effects → Nat, k { add_user := 1 } = 0 →
      k eff0 = 0 →
      k (ubusdev_hotplug_add true true b m dp).2.2 = 0 := by
    intro k h1 h2
    unfold ubusdev_hotplug_add ubusdev_check_subscribed
      ubusdev_bridge_create_member
    dsimp only
    cases hf : findMember b.members m with
    | none =>
      rw [findMember_append_single b.members m _ hf rfl]
      dsimp only [Effects.merge, eff0]
      simpa using h1
    | some u =>
      rw [findMember_updMember b.members m
        (fun mm => { mm with version := b.vlist_version })
        (fun mm => rfl), hf]
      dsimp only [Effects.merge, eff0]
      simpa using h2
  refine ⟨heff (fun e => e.locks) rfl rfl,
    heff (fun e => e.unlocks) rfl rfl, ?_, ?_, ?_⟩
  · unfold ubusdev_hotplug_add ubusdev_check_subscribed
      ubusdev_bridge_create_member
    dsimp only
    cases hf : findMember b.members m with
    | none =>
      rw [findMember_append_single b.members m _ hf rfl]
      rfl
    | some u =>
      rw [findMember_updMember b.members m
        (fun mm => { mm with version := b.vlist_version })
        (fun mm => rfl), hf]
      rfl
  · intro st md
    cases st with
    | none => rfl
    | some b2 =>
      cases md with
      | none => rfl
      | some dp2 =>
        unfold ubusdev_handle_hotplug_add_notification
          ubusdev_bridge_create_member
        dsimp only
        cases hf : findMember b2.members m with
        | none =>
          rw [findMember_append_single b2.members m _ hf rfl]
        | some u =>
          dsimp only
          split <;> rfl
  · intro hf
    constructor
    · unfold ubusdev_bridge_create_member
      rw [hf]
      dsimp only
      rw [findMember_append_single b.members m _ hf rfl]
      rfl
    · unfold ubusdev_hotplug_add ubusdev_check_subscribed
        ubusdev_bridge_create_member
      dsimp only
      rw [hf]
      dsimp only
      rw [findMember_append_single b.members m _ hf rfl]
      rfl

/-- C3 witness: the amended statement evaluated on the request
hotplug_add(br0, wlan0) against the subscribed demonstration bridge
(which has no member slot wlan0 yet). -/
theorem C3_witness :
    (ubusdev_hotplug_add true true br_demo2 "wlan0"
      true).2.2.locks = 0 ∧
    (ubusdev_hotplug_add true true br_demo2 "wlan0"
      true).2.2.unlocks = 0 ∧
    (ubusdev_hotplug_add true true br_demo2 "wlan0"
      true).2.2.invoked = [] ∧
    (ubusdev_handle_hotplug_add_notification (some br_demo2) "wlan0"
      (some true)).2.2.unlocks = 0 ∧
    ((ubusdev_bridge_create_member br_demo2 "wlan0" true
      true).2.1).map (fun u => u.hotplug) = some true ∧
    (ubusdev_hotplug_add true true br_demo2 "wlan0" true).2.1 = 0 :=
  ⟨(C3_theorem br_demo2 "wlan0" true).1,
   (C3_theorem br_demo2 "wlan0" true).2.1,
   (C3_theorem br_demo2 "wlan0" true).2.2.1,
   (C3_theorem br_demo2 "wlan0" true).2.2.2.1 (some br_demo2)
     (some true),
   ((C3_theorem br_demo2 "wlan0" true).2.2.2.2 (by decide)).1,
   ((C3_theorem br_demo2 "wlan0" true).2.2.2.2 (by decide)).2⟩

/-- C4 counterexample: the claim that every outward-going operation
first checks the subscription state and, when unsubscribed, is refused
with a warning and without state mutation, is false on the code:
ubusdev_hotplug_prepare performs no subscription check.  On the
unsubscribed demonstration bridge the prepare invocation is still
issued, no warning is emitted, and the bridge is moved to
STATE_PENDING_PREPARE with its retry timer armed. -/
theorem C4_counterexample :
    ¬ ((ubusdev_hotplug_prepare true false br_demo2 0 0).1 =
          br_demo2 ∧
       (ubusdev_hotplug_prepare true false br_demo2 0 0).2.2.warn =
          1 ∧
       (ubusdev_hotplug_prepare true false br_demo2 0 0).2.2.invoked =
          []) ∧
    (ubusdev_hotplug_prepare true false br_demo2 0 0).1.sync =
      STATE_PENDING_PREPARE ∧
    (ubusdev_hotplug_prepare true false br_demo2 0 0).2.2.warn = 0 ∧
    (ubusdev_hotplug_prepare true false br_demo2 0 0).2.2.invoked =
      ["prepare"] := by
  refine ⟨by decide, by decide, by decide, by decide⟩

/-- C4 (amended): create, reload, free (plain and bridge), config_init,
dump_info, dump_stats, hotplug add and hotplug remove all check the
subscription state first and, when the binding is unsubscribed, refuse
the operation with one warning and no state mutation and no invocation
(create yields no device, reload reports no change, hotplug add and
remove return the not-found status); hotplug prepare is the exception:
it never reads the subscription flag, and even on an unsubscribed
binding it invokes the prepare method and moves the bridge to
STATE_PENDING_PREPARE with the timer armed. -/
theorem C4_theorem :
    (∀ (name : String) (i : Nat),
      ubusdev_create false name i = (none, { warn := 1 })) ∧
    (∀ (d : ubusdev_device) (dif : Bool) (i : Nat),
      ubusdev_reload false d dif i =
        (d, DEV_CONFIG_NO_CHANGE, { warn := 1 })) ∧
    (∀ (d : ubusdev_device) (i : Nat),
      ubusdev_free false d i = (d, { warn := 1 })) ∧
    (∀ (b : ubusdev_bridge) (c : Int) (i : Nat),
      Br.ubusdev_free false b c i = (b, { warn := 1 })) ∧
    (∀ (b : ubusdev_bridge) (dp : String → Bool) (c : Int) (i : Nat),
      Br.ubusdev_config_init false b dp c i = (b, { warn := 1 })) ∧
    (ubusdev_dump_info false = { warn := 1 }) ∧
    (ubusdev_dump_stats false = { warn := 1 }) ∧
    (∀ (b : ubusdev_bridge) (m : String) (dp : Bool),
      ubusdev_hotplug_add true false b m dp =
        (b, UBUS_STATUS_NOT_FOUND, { warn := 1 })) ∧
    (∀ (b : ubusdev_bridge) (m : String) (i : Nat),
      ubusdev_hotplug_remove true false b m i =
        (b, UBUS_STATUS_NOT_FOUND, { warn := 1 })) ∧
    (∀ (b : ubusdev_bridge) (s : Bool) (c : Int) (i : Nat),
      ubusdev_hotplug_prepare true s b c i =
        ubusdev_hotplug_prepare true false b c i) ∧
    (∀ (b : ubusdev_bridge) (c : Int),
      (ubusdev_hotplug_prepare true false b c 0).1.sync =
        STATE_PENDING_PREPARE ∧
      (ubusdev_hotplug_prepare true false b c 0).1.retry_armed =
        true ∧
      "prepare" ∈
        (ubusdev_hotplug_prepare true false b c 0).2.2.invoked) := by
  refine ⟨fun name i => rfl, fun d dif i => rfl, fun d i => rfl,
    fun b c i => rfl, fun b dp c i => rfl, rfl, rfl,
    fun b m dp => rfl, fun b m i => rfl, fun b s c i => rfl,
    fun b c => ?_⟩
  obtain ⟨h1, h2, _h3, _h4⟩ := Br_set_timeout_fields b
    STATE_PENDING_PREPARE c 0
  refine ⟨h1, h2, ?_⟩
  show "prepare" ∈
    ("prepare" ::
      (Br.ubusdev_set_timeout b STATE_PENDING_PREPARE c 0).2.invoked)
  exact List.mem_cons_self _ _

/-- C9: the notification dispatcher refuses a type string outside
create, reload, free, prepare, add, remove with
UBUS_STATUS_NOT_SUPPORTED; an accepted device-level type whose payload
lacks the name field, and an accepted hotplug type whose payload lacks
the bridge or the member field, are refused with
UBUS_STATUS_INVALID_ARGUMENT. -/
theorem C9_theorem :
    (∀ (ty : String) (msg : NotifMsg),
      ty ≠ "create" → ty ≠ "reload" → ty ≠ "free" → ty ≠ "prepare" →
      ty ≠ "add" → ty ≠ "remove" →
      ubusdev_handle_notification ty msg =
        Except.error UBUS_STATUS_NOT_SUPPORTED) ∧
    (∀ (ty : String) (msg : NotifMsg),
      (ty = "create" ∨ ty = "reload" ∨ ty = "free" ∨ ty = "prepare") →
      blobmsg_lookup msg "name" = none →
      ubusdev_handle_notification ty msg =
        Except.error UBUS_STATUS_INVALID_ARGUMENT) ∧
    (∀ (ty : String) (msg : NotifMsg),
      (ty = "add" ∨ ty = "remove") →
      (blobmsg_lookup msg "bridge" = none ∨
        blobmsg_lookup msg "member" = none) →
      ubusdev_handle_notification ty msg =
        Except.error UBUS_STATUS_INVALID_ARGUMENT) := by
  refine ⟨?_, ?_, ?_⟩
  · intro ty msg h1 h2 h3 h4 h5 h6
    unfold ubusdev_handle_notification
    simp [h1, h2, h3, h4, h5, h6]
  · intro ty msg hty hmsg
    rcases hty with rfl | rfl | rfl | rfl <;>
      simp [ubusdev_handle_notification,
        _ubusdev_parse_dev_notification, hmsg]
  · intro ty msg hty hmsg
    rcases hty with rfl | rfl <;>
      rcases hmsg with hb | hm
    · simp [ubusdev_handle_notification,
        _ubusdev_parse_hotplug_notification, hb]
    · cases hb2 : blobmsg_lookup msg "bridge" <;>
        simp [ubusdev_handle_notification,
          _ubusdev_parse_hotplug_notification, hb2, hm]
    · simp [ubusdev_handle_notification,
        _ubusdev_parse_hotplug_notification, hb]
    · cases hb2 : blobmsg_lookup msg "bridge" <;>
        simp [ubusdev_handle_notification,
          _ubusdev_parse_hotplug_notification, hb2, hm]

/-- C9 witness: the dispatcher refusals on concrete notifications: an
unknown type string, a create notification without a name field and an
add notification without a member field. -/
theorem C9_witness :
    ubusdev_handle_notification "bogus" [] =
      Except.error UBUS_STATUS_NOT_SUPPORTED ∧
    ubusdev_handle_notification "create" [("other", "x")] =
      Except.error UBUS_STATUS_INVALID_ARGUMENT ∧
    ubusdev_handle_notification "add" [("bridge", "br0")] =
      Except.error UBUS_STATUS_INVALID_ARGUMENT :=
  ⟨C9_theorem.1 "bogus" [] (by decide) (by decide) (by decide)
      (by decide) (by decide) (by decide),
   C9_theorem.2.1 "create" [("other", "x")] (Or.inl rfl) (by decide),
   C9_theorem.2.2 "add" [("bridge", "br0")] (Or.inl rfl)
     (Or.inr (by decide))⟩

end Ubusdev
